import Mathlib

/-
Verification development for the Android NN HAL 1.0 HVX (Hexagon) driver.

The definitions below are a shallow embedding of the driver's graph-building
core:
  * HexagonModel.cpp      (Model construction, compile, execute, reset, move)
  * HexagonUtils.cpp      (activation mapping, alignment, padding, sizes)
  * HexagonController.cpp (accelerator entry points, modelled as an oracle
                           plus an explicit call trace)
  * HexagonOperationsCheck.cpp   (per-operation feasibility checks)
  * HexagonOperationsPrepare.cpp (per-operation lowering functions)
  * PreparedModel.cpp / Device.cpp (execute path)

Machine integers are modelled as Nat/Int with explicit reduction modulo 2^32
where the C++ unsigned arithmetic can wrap.  32-bit floats are modelled as
exact rationals (Rat); the facts proved about them are facts about the
formulas the code computes, not about rounding.

The accelerator runtime is external.  It is modelled as an oracle (Ctrl)
deciding the integer status of each native call, together with a ghost trace
of every native call issued, so that theorems can speak about which
accelerator interactions a code path performs.
-/

set_option linter.unusedVariables false

namespace Hvx

/-- Operand numeric-representation kinds of the NN 1.0 HAL, in enum order. -/
inductive OperandType
  | FLOAT32
  | INT32
  | UINT32
  | TENSOR_FLOAT32
  | TENSOR_INT32
  | TENSOR_QUANT8_ASYMM
deriving DecidableEq, Repr

/-- Operand lifetime tags of the NN 1.0 HAL. -/
inductive OperandLifeTime
  | TEMPORARY_VARIABLE
  | MODEL_INPUT
  | MODEL_OUTPUT
  | CONSTANT_COPY
  | CONSTANT_REFERENCE
deriving DecidableEq, Repr

/-- Operation kinds of the NN 1.0 HAL. -/
inductive OperationType
  | ADD
  | AVERAGE_POOL_2D
  | CONCATENATION
  | CONV_2D
  | DEPTHWISE_CONV_2D
  | DEPTH_TO_SPACE
  | DEQUANTIZE
  | EMBEDDING_LOOKUP
  | FLOOR
  | FULLY_CONNECTED
  | HASHTABLE_LOOKUP
  | L2_NORMALIZATION
  | L2_POOL_2D
  | LOCAL_RESPONSE_NORMALIZATION
  | LOGISTIC
  | LSH_PROJECTION
  | LSTM
  | MAX_POOL_2D
  | MUL
  | RELU
  | RELU1
  | RELU6
  | RESHAPE
  | RESIZE_BILINEAR
  | RNN
  | SOFTMAX
  | SPACE_TO_DEPTH
  | SVDF
  | TANH
deriving DecidableEq, Repr

/-- Fused activation selectors of the NN 1.0 HAL (enum codes 0..3). -/
inductive FusedActivationFunc
  | NONE
  | RELU
  | RELU1
  | RELU6
deriving DecidableEq, Repr

/-- The hexagon_nn op_type opcodes used by this driver (subset of ops.def). -/
inductive op_type
  | OP_INPUT
  | OP_OUTPUT
  | OP_Nop
  | OP_Relu_f
  | OP_ReluX_f
  | OP_Clamp_f
  | OP_QuantizedRelu_8
  | OP_QuantizedReluX_8
  | OP_QuantizedClamp_8
  | OP_Add_f
  | OP_Mul_f
  | OP_BiasAdd_f
  | OP_Conv2d_f
  | OP_DepthwiseConv2d_f
  | OP_MatMul_f
  | OP_AvgPool_f
  | OP_MaxPool_f
  | OP_L2Pool_f
  | OP_Concat_f
  | OP_LRN_f
  | OP_Sigmoid_f
  | OP_Tanh_f
  | OP_Softmax_f
  | OP_Reshape
  | OP_QuantizedReshape
  | OP_ResizeBilinear_f
  | OP_Requantize_32to8
  | OP_Add_int32
  | OP_QuantizedAdd_8p8to32
  | OP_QuantizedMul_8x8to32
  | OP_QuantizedConv2d_8x8to32
  | OP_QuantizedDepthwiseConv2d_8x8to32
  | OP_QuantizedMatMul_8x8to32
  | OP_QuantizedAvgPool_8
  | OP_QuantizedMaxPool_8
  | OP_QuantizedConcat_8
  | OP_Dequantize
  | OP_QuantizedSigmoid_8
  | OP_QuantizedSoftmax_8
deriving DecidableEq, Repr

/-- hexagon_nn_padding_type (subset used by the driver). -/
inductive hexagon_nn_padding_type
  | NN_PAD_NA
  | NN_PAD_SAME
  | NN_PAD_VALID
deriving DecidableEq, Repr

/-- A (producing node id, output slot) pair; the zero pair is the unset
sentinel (C++ hexagon_nn_input with value-initialized fields). -/
structure hexagon_nn_input where
  src_id : Nat := 0
  output_idx : Nat := 0
deriving DecidableEq, Repr

instance : Inhabited hexagon_nn_input := ⟨{}⟩

/-- hexagon_nn_output: the per-output descriptor handed to append_node.
max_sizes holds exactly 8 entries (missing axes are 0). -/
structure hexagon_nn_output where
  rank : Nat := 0
  max_sizes : List Nat := [0, 0, 0, 0, 0, 0, 0, 0]
  elementsize : Nat := 0
  zero_offset : Nat := 0
  stepsize : Rat := 0
deriving DecidableEq, Repr

instance : Inhabited hexagon_nn_output := ⟨{}⟩

/-- Constant data handed to append_const_node.  Float payloads are tracked
exactly (as rationals); payloads copied verbatim from an operand buffer
(weights, filters) are tracked by provenance only. -/
inductive ConstPayload
  | floats (vals : List Rat)
  | ints (vals : List Int)
  | rawBuffer (operand : Nat)
  | dummyWord
deriving DecidableEq, Repr

/-- Ghost record of one native accelerator call made by the driver. -/
inductive CtrlCall
  | initGraph (result : Nat)
  | setDebugLevel (id : Nat) (level : Int)
  | appendNode (id node : Nat) (op : op_type) (pad : hexagon_nn_padding_type)
      (ins : List hexagon_nn_input) (outs : List hexagon_nn_output)
  | appendConstNode (id node b h w d : Nat) (data : ConstPayload) (len : Nat)
  | teardown (id : Nat)
  | prepareGraph (id : Nat) (err : Int)
  | executeNew (id : Nat) (nIns nOuts : Nat) (err : Int)
  | getlog (id : Nat)
  | snpprint (id : Nat)
deriving DecidableEq, Repr

/-- Oracle for the external accelerator library: decides the status returned
by each native call.  append results are keyed by the node id passed in;
init/prepare/execute results are keyed by how many such calls happened. -/
structure Ctrl where
  initResult : Nat → Nat
  appendNodeOk : Nat → Bool
  appendConstOk : Nat → Bool
  prepareErr : Nat → Int
  executeErr : Nat → Int

/-- OperandInfo of HexagonModel.h: resolved metadata for one model operand.
The buffer is viewed as a list of 32-bit words (the driver only ever reads
scalars out of it); zeroPoint is the HAL int32_t zero point. -/
structure OperandInfo where
  type : OperandType := .FLOAT32
  dimensions : List Nat := []
  scale : Rat := 0
  zeroPoint : Int := 0
  lifetime : OperandLifeTime := .TEMPORARY_VARIABLE
  buffer : List Int := []
  length : Nat := 0
  hexagon_input : hexagon_nn_input := {}
  hexagon_input_min : hexagon_nn_input := {}
  hexagon_input_max : hexagon_nn_input := {}
  hexagon_output : hexagon_nn_output := {}
deriving DecidableEq, Repr

instance : Inhabited OperandInfo := ⟨{}⟩

/-- One entry of the model's operation list. -/
structure Operation where
  type : OperationType
  inputs : List Nat
  outputs : List Nat
deriving DecidableEq, Repr

/-- android::nn::Shape (type, dimensions, scale, offset). -/
structure Shape where
  type : OperandType
  dimensions : List Nat
  scale : Rat
  offset : Int
deriving DecidableEq, Repr

/-- The mutable state the graph-building helpers operate on: node counter,
operand table, ghost controller-call trace (most recent call first) and the
per-kind call counters feeding the oracle. -/
structure Core where
  nodeCount : Nat := 0
  operands : List OperandInfo := []
  trace : List CtrlCall := []
  initCount : Nat := 0
  prepCount : Nat := 0
  execCount : Nat := 0

/-- Full state of one hexagon::Model object.  The helpers of the C++ class
read mGraphId and the controller singleton; the embedding passes those in
explicitly, so that only Core is threaded through graph construction. -/
structure MState where
  core : Core
  graphId : Nat := 0
  mCompiled : Bool := false
  ctrl : Ctrl
  operations : List Operation := []
  inputsIdx : List Nat := []
  outputsIdx : List Nat := []

/-- uint32_t view of an int32 value (C++ usual arithmetic conversions). -/
def u32 (i : Int) : Nat := (i % (2 ^ 32 : Int)).toNat

/-- Operand table lookup (C++ mOperands[i]; out-of-range is UB there, a
default entry here). -/
def opAt (env : List OperandInfo) (k : Nat) : OperandInfo := env.getD k default

/-- Operand table update. -/
def setOp (env : List OperandInfo) (k : Nat) (o : OperandInfo) : List OperandInfo :=
  env.set k o

/-- Append one ghost controller call to the trace. -/
def addTrace (ev : CtrlCall) (c : Core) : Core := { c with trace := ev :: c.trace }

/-- Model::getNextNode: return ++mNodeCount (uint32_t increment). -/
def getNextNode (c : Core) : Nat × Core :=
  let n := (c.nodeCount + 1) % 2 ^ 32
  (n, { c with nodeCount := n })

/-- HexagonUtils getSize(OperandType): element byte size by enum index. -/
def getSize : OperandType → Nat
  | .FLOAT32 => 4
  | .INT32 => 4
  | .UINT32 => 4
  | .TENSOR_FLOAT32 => 4
  | .TENSOR_INT32 => 4
  | .TENSOR_QUANT8_ASYMM => 1

/-- HexagonUtils getAlignedDimensions: left-pad the dimensions with 1 up to
N axes; if there are more than N axes the soft assert fails and the empty
vector is returned. -/
def getAlignedDimensions (dims : List Nat) (n : Nat) : List Nat :=
  if n < dims.length then []
  else List.replicate (n - dims.length) 1 ++ dims

/-- HexagonUtils make_hexagon_nn_output. -/
def make_hexagon_nn_output (dims : List Nat) (size : Nat) : hexagon_nn_output :=
  let aligned := getAlignedDimensions dims 4
  { rank := min 8 aligned.length
    max_sizes := (List.range 8).map (fun i => aligned.getD i 0)
    elementsize := size
    zero_offset := 0
    stepsize := 0 }

/-- Model::getShape. -/
def getShapeP (env : List OperandInfo) (k : Nat) : Shape :=
  { type := (opAt env k).type
    dimensions := (opAt env k).dimensions
    scale := (opAt env k).scale
    offset := (opAt env k).zeroPoint }

/-- Model::setShape: fails (soft assert) when the operand's output
descriptor has already been assigned; otherwise copies the dimensions only
(the type/scale/offset updates are commented out in the source). -/
def Model.setShape (env : List OperandInfo) (k : Nat) (sh : Shape) :
    Bool × List OperandInfo :=
  if (opAt env k).hexagon_output ≠ ({} : hexagon_nn_output) then (false, env)
  else (true, setOp env k { opAt env k with dimensions := sh.dimensions })

/-- Model::isConstant. -/
def isConstant (env : List OperandInfo) (k : Nat) : Bool :=
  (opAt env k).lifetime = .CONSTANT_COPY ∨ (opAt env k).lifetime = .CONSTANT_REFERENCE

/-- Modelled from the spec: Model::getScalar of HexagonModel.h (the header
is not among the provided sources) reads the scalar stored at the start of
the operand's resolved buffer. -/
def getScalarInt (env : List OperandInfo) (k : Nat) : Int :=
  (opAt env k).buffer.getD 0 0

/-- FusedActivationFunc decoding of the int32 selector scalar; codes outside
0..3 behave like NONE (every switch over the enum sends them to the same
default branch as NONE). -/
def fusedOfInt : Int → FusedActivationFunc
  | 0 => .NONE
  | 1 => .RELU
  | 2 => .RELU1
  | 3 => .RELU6
  | _ => .NONE

/-- HexagonUtils getFloatActivationFunction. -/
def getFloatActivationFunction : FusedActivationFunc → op_type
  | .RELU => .OP_Relu_f
  | .RELU1 => .OP_ReluX_f
  | .RELU6 => .OP_Clamp_f
  | .NONE => .OP_Nop

/-- HexagonUtils getQuantizedActivationFunction. -/
def getQuantizedActivationFunction : FusedActivationFunc → op_type
  | .RELU => .OP_QuantizedRelu_8
  | .RELU1 => .OP_QuantizedReluX_8
  | .RELU6 => .OP_QuantizedClamp_8
  | .NONE => .OP_Nop

/-- Model::getFloatActivation. -/
def getFloatActivation (env : List OperandInfo) (k : Nat) : op_type :=
  getFloatActivationFunction (fusedOfInt (getScalarInt env k))

/-- Model::getQuantizedActivation. -/
def getQuantizedActivation (env : List OperandInfo) (k : Nat) : op_type :=
  getQuantizedActivationFunction (fusedOfInt (getScalarInt env k))

/-- Model::createTensorInternal: allocate one node id, issue
append_const_node, and return the (node, 0) handle, or the zero handle when
the accelerator rejected the node. -/
def createTensorInternal (gid : Nat) (ctrl : Ctrl) (b h w d : Nat)
    (data : ConstPayload) (size : Nat) (c : Core) : hexagon_nn_input × Core :=
  let (node, c1) := getNextNode c
  let ok := ctrl.appendConstOk node
  let c2 := addTrace (.appendConstNode gid node b h w d data size) c1
  (if ok then { src_id := node, output_idx := 0 } else {}, c2)

/-- Model::createShape: a 4-entry shape constant holding a dummy word. -/
def createShape (gid : Nat) (ctrl : Ctrl) (b h w d : Nat) (c : Core) :
    hexagon_nn_input × Core :=
  createTensorInternal gid ctrl b h w d .dummyWord 4 c

/-- Modelled from the spec: Model::createValues of HexagonModel.h creates a
constant node of shape [1,1,1,len] holding the given float values. -/
def createValues (gid : Nat) (ctrl : Ctrl) (vals : List Rat) (c : Core) :
    hexagon_nn_input × Core :=
  createTensorInternal gid ctrl 1 1 1 vals.length (.floats vals) (4 * vals.length) c

/-- Modelled from the spec: Model::createScalar of HexagonModel.h creates a
[1,1,1,1] constant holding one float value. -/
def createScalarF (gid : Nat) (ctrl : Ctrl) (v : Rat) (c : Core) :
    hexagon_nn_input × Core :=
  createTensorInternal gid ctrl 1 1 1 1 (.floats [v]) 4 c

/-- Modelled from the spec: Model::createScalar instantiated at int32. -/
def createScalarI (gid : Nat) (ctrl : Ctrl) (v : Int) (c : Core) :
    hexagon_nn_input × Core :=
  createTensorInternal gid ctrl 1 1 1 1 (.ints [v]) 4 c

/-- Modelled from the spec: Model::createTensor of HexagonModel.h creates a
[b,h,w,d] constant holding the given float values. -/
def createTensorF (gid : Nat) (ctrl : Ctrl) (b h w d : Nat) (vals : List Rat)
    (c : Core) : hexagon_nn_input × Core :=
  createTensorInternal gid ctrl b h w d (.floats vals) (4 * vals.length) c

/-- Model::addOperand: materialize a constant tensor for the operand. -/
def addOperand (gid : Nat) (ctrl : Ctrl) (k : Nat) (c : Core) :
    hexagon_nn_input × Core :=
  let o := opAt c.operands k
  let dims := getAlignedDimensions o.dimensions 4
  if dims.length = 0 then ({}, c)
  else
    createTensorInternal gid ctrl (dims.getD 0 0) (dims.getD 1 0) (dims.getD 2 0)
      (dims.getD 3 0) (.rawBuffer k) o.length c

/-- Model::getTensor: lazily realize the operand's tensor handle. -/
def getTensor (gid : Nat) (ctrl : Ctrl) (k : Nat) (c : Core) :
    hexagon_nn_input × Core :=
  let o := opAt c.operands k
  if o.hexagon_input = ({} : hexagon_nn_input) then
    let (h, c1) := addOperand gid ctrl k c
    (h, { c1 with operands := setOp c1.operands k { opAt c1.operands k with hexagon_input := h } })
  else (o.hexagon_input, c)

/-- Model::getQuantizationMin: on first call create the constant
(0 - zeroPoint) * scale and cache its handle on the operand. -/
def getQuantizationMin (gid : Nat) (ctrl : Ctrl) (k : Nat) (c : Core) :
    hexagon_nn_input × Core :=
  let o := opAt c.operands k
  if o.hexagon_input_min = ({} : hexagon_nn_input) then
    let real : Rat := ((0 - o.zeroPoint : Int) : Rat) * o.scale
    let (h, c1) := createValues gid ctrl [real] c
    (h, { c1 with operands := setOp c1.operands k { opAt c1.operands k with hexagon_input_min := h } })
  else (o.hexagon_input_min, c)

/-- Model::getQuantizationMax: on first call create the constant
(255 - zeroPoint) * scale and cache its handle on the operand. -/
def getQuantizationMax (gid : Nat) (ctrl : Ctrl) (k : Nat) (c : Core) :
    hexagon_nn_input × Core :=
  let o := opAt c.operands k
  if o.hexagon_input_max = ({} : hexagon_nn_input) then
    let real : Rat := ((255 - o.zeroPoint : Int) : Rat) * o.scale
    let (h, c1) := createValues gid ctrl [real] c
    (h, { c1 with operands := setOp c1.operands k { opAt c1.operands k with hexagon_input_max := h } })
  else (o.hexagon_input_max, c)

/-- Model::createQuantizationValue: quant_value is a uint32_t, so the C++
subtraction quant_value - zeroPoint is performed in unsigned 32-bit
arithmetic (the int32 zero point converts to uint32) before the float
conversion and multiplication by the scale. -/
def createQuantizationValue (gid : Nat) (ctrl : Ctrl) (k : Nat)
    (quantValue : Nat) (c : Core) : hexagon_nn_input × Core :=
  let o := opAt c.operands k
  let sub : Int := ((quantValue : Int) - o.zeroPoint) % (2 ^ 32 : Int)
  let real : Rat := (sub : Rat) * o.scale
  createValues gid ctrl [real] c

/-- Model::createConvFilterTensor: NHWC to HWCN transpose of the constant
filter; the payload provenance is tracked, the transposed bytes are opaque. -/
def createConvFilterTensor (gid : Nat) (ctrl : Ctrl) (k : Nat) (c : Core) :
    hexagon_nn_input × Core :=
  let o := opAt c.operands k
  let dims := getAlignedDimensions o.dimensions 4
  if dims.length = 0 then ({}, c)
  else
    createTensorInternal gid ctrl (dims.getD 1 0) (dims.getD 2 0) (dims.getD 3 0)
      (dims.getD 0 0) (.rawBuffer k) o.length c

/-- Model::createDepthwiseFilterTensor. -/
def createDepthwiseFilterTensor (gid : Nat) (ctrl : Ctrl) (k : Nat)
    (depthMultiplier : Int) (c : Core) : hexagon_nn_input × Core :=
  let o := opAt c.operands k
  let dims := getAlignedDimensions o.dimensions 4
  if dims.length = 0 then ({}, c)
  else
    createTensorInternal gid ctrl (dims.getD 1 0) (dims.getD 2 0)
      (dims.getD 3 0 / u32 depthMultiplier)
      ((dims.getD 0 0 * u32 depthMultiplier) % 2 ^ 32)
      (.rawBuffer k) o.length c

/-- Model::createFullyConnectedWeightTensor: WC to CW transpose. -/
def createFullyConnectedWeightTensor (gid : Nat) (ctrl : Ctrl) (k : Nat)
    (c : Core) : hexagon_nn_input × Core :=
  let o := opAt c.operands k
  let dims := getAlignedDimensions o.dimensions 4
  if dims.length = 0 then ({}, c)
  else
    createTensorInternal gid ctrl 1 1 (dims.getD 1 0) (dims.getD 0 0)
      (.rawBuffer k) o.length c

/-- verifyOperationInputs of HexagonModel.cpp. -/
def verifyOperationInputs (ins : List hexagon_nn_input) : Bool :=
  ins.all (fun i => decide (i ≠ ({} : hexagon_nn_input)))

/-- verifyOperationOutputs of HexagonModel.cpp. -/
def verifyOperationOutputs (outs : List hexagon_nn_output) : Bool :=
  outs.all (fun o => decide (o ≠ ({} : hexagon_nn_output)))

/-- Model::addOperationInternal: verify the operands, allocate one node id,
issue append_node; the node id is returned on success, zero on rejection.
A verification failure returns zero without touching the node counter. -/
def addOperationInternal (gid : Nat) (ctrl : Ctrl) (op : op_type)
    (pad : hexagon_nn_padding_type) (ins : List hexagon_nn_input)
    (outs : List hexagon_nn_output) (c : Core) : Nat × Core :=
  if ¬ verifyOperationInputs ins then (0, c)
  else if ¬ verifyOperationOutputs outs then (0, c)
  else
    let (node, c1) := getNextNode c
    let ok := ctrl.appendNodeOk node
    let c2 := addTrace (.appendNode gid node op pad ins outs) c1
    (if ok then node else 0, c2)

/-- Model::getHexagonOutputs: one descriptor per output operand, plus the
two [1,1,1,1] float range descriptors for quantized operands. -/
def getHexagonOutputs (env : List OperandInfo) (operands : List Nat) :
    List hexagon_nn_output :=
  operands.flatMap (fun k =>
    let o := opAt env k
    make_hexagon_nn_output o.dimensions (getSize o.type) ::
      (if o.type = .TENSOR_QUANT8_ASYMM then
        [make_hexagon_nn_output [1, 1, 1, 1] 4, make_hexagon_nn_output [1, 1, 1, 1] 4]
      else []))

/-- Loop body of Model::registerHexagonInputs, threading the output slot
index; fails without assigning as soon as an operand already has a handle. -/
def registerHexagonInputsAux (node : Nat) :
    List Nat → Nat → List OperandInfo → Bool × List OperandInfo
  | [], _, env => (true, env)
  | i :: rest, idx, env =>
    let o := opAt env i
    if o.hexagon_input ≠ ({} : hexagon_nn_input) then (false, env)
    else if o.type = .TENSOR_QUANT8_ASYMM then
      registerHexagonInputsAux node rest (idx + 3)
        (setOp env i { o with
          hexagon_input := { src_id := node, output_idx := idx }
          hexagon_input_min := { src_id := node, output_idx := idx + 1 }
          hexagon_input_max := { src_id := node, output_idx := idx + 2 } })
    else
      registerHexagonInputsAux node rest (idx + 1)
        (setOp env i { o with hexagon_input := { src_id := node, output_idx := idx } })

/-- Model::registerHexagonInputs. -/
def registerHexagonInputs (operands : List Nat) (node : Nat) (c : Core) :
    Bool × Core :=
  let (b, env) := registerHexagonInputsAux node operands 0 c.operands
  (b, { c with operands := env })

/-- Model::addBasicOperation. -/
def addBasicOperation (gid : Nat) (ctrl : Ctrl) (op : op_type)
    (pad : hexagon_nn_padding_type) (ins : List hexagon_nn_input)
    (outs : List Nat) (c : Core) : Bool × Core :=
  let hexOuts := getHexagonOutputs c.operands outs
  let (node, c1) := addOperationInternal gid ctrl op pad ins hexOuts c
  if node = 0 then (false, c1)
  else registerHexagonInputs outs node c1

/-- Model::setupActivationArgs: extra constant inputs required by each
activation opcode (6.0 for the ReluX forms, -1.0 and 1.0 for the Clamp
forms); unknown opcodes soft-assert and yield no arguments. -/
def setupActivationArgs (gid : Nat) (ctrl : Ctrl) (op : op_type) (c : Core) :
    List hexagon_nn_input × Core :=
  match op with
  | .OP_Nop => ([], c)
  | .OP_Relu_f => ([], c)
  | .OP_QuantizedRelu_8 => ([], c)
  | .OP_ReluX_f =>
    let (h, c1) := createValues gid ctrl [6] c
    ([h], c1)
  | .OP_QuantizedReluX_8 =>
    let (h, c1) := createValues gid ctrl [6] c
    ([h], c1)
  | .OP_Clamp_f =>
    let (h1, c1) := createValues gid ctrl [-1] c
    let (h2, c2) := createValues gid ctrl [1] c1
    ([h1, h2], c2)
  | .OP_QuantizedClamp_8 =>
    let (h1, c1) := createValues gid ctrl [-1] c
    let (h2, c2) := createValues gid ctrl [1] c1
    ([h1, h2], c2)
  | _ => ([], c)

/-- Model::addFloatOperationWithActivation. -/
def addFloatOperationWithActivation (gid : Nat) (ctrl : Ctrl) (op : op_type)
    (pad : hexagon_nn_padding_type) (activation : op_type)
    (ins : List hexagon_nn_input) (outs : List Nat) (c : Core) : Bool × Core :=
  let hexOuts := getHexagonOutputs c.operands outs
  let (actArgs, c1) := setupActivationArgs gid ctrl activation c
  let (node, c2) := addOperationInternal gid ctrl op pad ins hexOuts c1
  if node = 0 then (false, c2)
  else
    let bufferIn := ({ src_id := node, output_idx := 0 } : hexagon_nn_input) :: actArgs
    let (node2, c3) := addOperationInternal gid ctrl activation .NN_PAD_NA bufferIn hexOuts c2
    if node2 = 0 then (false, c3)
    else registerHexagonInputs outs node2 c3

/-- Model::addQuant8OperationWithActivation. -/
def addQuant8OperationWithActivation (gid : Nat) (ctrl : Ctrl) (op : op_type)
    (pad : hexagon_nn_padding_type) (activation : op_type)
    (ins : List hexagon_nn_input) (outs : List Nat) (c : Core) : Bool × Core :=
  let hexOuts := getHexagonOutputs c.operands outs
  let (actArgs, c1) := setupActivationArgs gid ctrl activation c
  let (node, c2) := addOperationInternal gid ctrl op pad ins hexOuts c1
  if node = 0 then (false, c2)
  else
    let bufferIn := ({ src_id := node, output_idx := 0 } : hexagon_nn_input) ::
      ({ src_id := node, output_idx := 1 } : hexagon_nn_input) ::
      ({ src_id := node, output_idx := 2 } : hexagon_nn_input) :: actArgs
    let (node2, c3) := addOperationInternal gid ctrl activation .NN_PAD_NA bufferIn hexOuts c2
    if node2 = 0 then (false, c3)
    else registerHexagonInputs outs node2 c3

/-- Model::addFusedFloatOperation: base op, optional bias-add, activation. -/
def addFusedFloatOperation (gid : Nat) (ctrl : Ctrl) (op : op_type)
    (pad : hexagon_nn_padding_type) (bias : hexagon_nn_input)
    (activation : op_type) (ins : List hexagon_nn_input) (outs : List Nat)
    (c : Core) : Bool × Core :=
  if outs.length ≠ 1 then (false, c)
  else
    let hexOuts := getHexagonOutputs c.operands outs
    let (actArgs, c1) := setupActivationArgs gid ctrl activation c
    let (node, c2) := addOperationInternal gid ctrl op pad ins hexOuts c1
    if node = 0 then (false, c2)
    else
      let step := fun (node : Nat) (c2 : Core) =>
        let buffer2 := ({ src_id := node, output_idx := 0 } : hexagon_nn_input) :: actArgs
        let (node2, c4) := addOperationInternal gid ctrl activation .NN_PAD_NA buffer2 hexOuts c2
        if node2 = 0 then (false, c4)
        else registerHexagonInputs outs node2 c4
      if bias ≠ ({} : hexagon_nn_input) then
        let buffer1 : List hexagon_nn_input := [{ src_id := node, output_idx := 0 }, bias]
        let (nodeB, c3) := addOperationInternal gid ctrl .OP_BiasAdd_f .NN_PAD_NA buffer1 hexOuts c2
        if nodeB = 0 then (false, c3) else step nodeB c3
      else step node c2

/-- Model::addFusedQuant8Operation: base op producing a 32-bit intermediate
with running min/max, optional int32 bias-add, requantize to 8-bit against
the output operand's cached quantization range, then activation. -/
def addFusedQuant8Operation (gid : Nat) (ctrl : Ctrl) (op : op_type)
    (pad : hexagon_nn_padding_type) (bias : hexagon_nn_input)
    (activation : op_type) (ins : List hexagon_nn_input) (outs : List Nat)
    (c : Core) : Bool × Core :=
  if outs.length ≠ 1 then (false, c)
  else
    let (actArgs, c1) := setupActivationArgs gid ctrl activation c
    let outDims := (opAt c1.operands (outs.getD 0 0)).dimensions
    let tensorOut8 := make_hexagon_nn_output outDims 1
    let tensorOut32 := make_hexagon_nn_output outDims 4
    let scalarOut32 := make_hexagon_nn_output [1, 1, 1, 1] 4
    let out8 := [tensorOut8, scalarOut32, scalarOut32]
    let out32 := [tensorOut32, scalarOut32, scalarOut32]
    let (node, c2) := addOperationInternal gid ctrl op pad ins out32 c1
    if node = 0 then (false, c2)
    else
      let oldMin : hexagon_nn_input := { src_id := node, output_idx := 1 }
      let oldMax : hexagon_nn_input := { src_id := node, output_idx := 2 }
      let step := fun (node2 : Nat) (c3 : Core) =>
        let (newMin, c4) := getQuantizationMin gid ctrl (outs.getD 0 0) c3
        let (newMax, c5) := getQuantizationMax gid ctrl (outs.getD 0 0) c4
        let buffer2 : hexagon_nn_input := { src_id := node2, output_idx := 0 }
        let (nodeR, c6) := addOperationInternal gid ctrl .OP_Requantize_32to8 .NN_PAD_NA
          [buffer2, oldMin, oldMax, newMin, newMax] out8 c5
        if nodeR = 0 then (false, c6)
        else
          let buffer3 := ({ src_id := nodeR, output_idx := 0 } : hexagon_nn_input) ::
            ({ src_id := nodeR, output_idx := 1 } : hexagon_nn_input) ::
            ({ src_id := nodeR, output_idx := 2 } : hexagon_nn_input) :: actArgs
          let (nodeA, c7) := addOperationInternal gid ctrl activation .NN_PAD_NA buffer3 out8 c6
          if nodeA = 0 then (false, c7)
          else registerHexagonInputs outs nodeA c7
      if bias ≠ ({} : hexagon_nn_input) then
        let buffer1 : List hexagon_nn_input := [{ src_id := node, output_idx := 0 }, bias]
        let (nodeB, c3) := addOperationInternal gid ctrl .OP_Add_int32 .NN_PAD_NA buffer1 [tensorOut32] c2
        if nodeB = 0 then (false, c3) else step nodeB c3
      else step node c2

end Hvx

namespace Hvx

/-! ### Shape/Type Validators

The `<op>Prepare` functions live in the framework's OperationsUtils, outside
this repository.  The spec describes them at interface level: pure functions
computing the output shape from the input shapes and scalar parameters,
rejecting structurally unsupported configurations (rank above 4, zero
dimensions).  They are modelled from the spec here; in particular the output
shape they produce depends only on input shapes and scalar parameters. -/

/-- Modelled from the spec: NumPy-style broadcast of two dimension vectors
(used by the add/mul validator; spec scenario 1 speaks of "the broadcast
shape of the inputs"). -/
def broadcastDims (a b : List Nat) : Option (List Nat) :=
  let n := max a.length b.length
  let aa := List.replicate (n - a.length) 1 ++ a
  let bb := List.replicate (n - b.length) 1 ++ b
  let step := fun (x y : Nat) =>
    if x = y then some x else if x = 1 then some y else if y = 1 then some x else none
  (List.zip aa bb).foldr
    (fun p acc => match acc, step p.1 p.2 with
      | some l, some v => some (v :: l)
      | _, _ => none)
    (some [])

/-- Modelled from the spec: addMulPrepare checks the ranks are at most 4 and
the element types agree, and yields the broadcast shape. -/
def addMulPrepare (s1 s2 : Shape) : Option (List Nat) :=
  if s1.dimensions.length ≤ 4 ∧ s2.dimensions.length ≤ 4 ∧ s1.type = s2.type then
    broadcastDims s1.dimensions s2.dimensions
  else none

/-- Modelled from the spec: genericActivationPrepare passes the input shape
through (rank at most 4). -/
def genericActivationPrepare (s : Shape) : Option (List Nat) :=
  if s.dimensions.length ≤ 4 then some s.dimensions else none

/-- Modelled from the spec: genericNormalizationPrepare passes the input
shape through (rank at most 4). -/
def genericNormalizationPrepare (s : Shape) : Option (List Nat) :=
  if s.dimensions.length ≤ 4 then some s.dimensions else none

/-- Modelled from the spec: dequantizePrepare passes the input shape
through (rank at most 4). -/
def dequantizePrepare (s : Shape) : Option (List Nat) :=
  if s.dimensions.length ≤ 4 then some s.dimensions else none

/-- Modelled from the spec: one output axis of a pooling/convolution window:
(inSize - filterSize + padHead + padTail) / stride + 1. -/
def computeOutSize (size filter stride padHead padTail : Int) : Int :=
  (size - filter + padHead + padTail) / stride + 1

/-- Modelled from the spec: genericPoolingPrepare computes the pooled
output shape on a rank-4 input; nonpositive strides or output sizes are
structurally unsupported (a zero dimension is invalid). -/
def genericPoolingPrepare (inS : Shape) (padL padR padT padB strideW strideH
    filterW filterH : Int) : Option (List Nat) :=
  match inS.dimensions with
  | [b, h, w, d] =>
    if strideW ≤ 0 ∨ strideH ≤ 0 then none
    else
      let outH := computeOutSize (h : Int) filterH strideH padT padB
      let outW := computeOutSize (w : Int) filterW strideW padL padR
      if outH ≤ 0 ∨ outW ≤ 0 then none
      else some [b, outH.toNat, outW.toNat, d]
  | _ => none

/-- Modelled from the spec: convPrepare computes the convolution output
shape on rank-4 input and filter (filter is [depthOut, fH, fW, depthIn]). -/
def convPrepare (inS filterS biasS : Shape) (padL padR padT padB strideW
    strideH : Int) : Option (List Nat) :=
  match inS.dimensions, filterS.dimensions with
  | [b, h, w, _d], [dOut, fH, fW, _dIn] =>
    if strideW ≤ 0 ∨ strideH ≤ 0 then none
    else
      let outH := computeOutSize (h : Int) (fH : Int) strideH padT padB
      let outW := computeOutSize (w : Int) (fW : Int) strideW padL padR
      if outH ≤ 0 ∨ outW ≤ 0 then none
      else some [b, outH.toNat, outW.toNat, dOut]
  | _, _ => none

/-- Modelled from the spec: depthwiseConvPrepare (filter is
[1, fH, fW, depthOut]). -/
def depthwiseConvPrepare (inS filterS biasS : Shape) (padL padR padT padB
    strideW strideH : Int) : Option (List Nat) :=
  match inS.dimensions, filterS.dimensions with
  | [b, h, w, _d], [_one, fH, fW, dOut] =>
    if strideW ≤ 0 ∨ strideH ≤ 0 then none
    else
      let outH := computeOutSize (h : Int) (fH : Int) strideH padT padB
      let outW := computeOutSize (w : Int) (fW : Int) strideW padL padR
      if outH ≤ 0 ∨ outW ≤ 0 then none
      else some [b, outH.toNat, outW.toNat, dOut]
  | _, _ => none

/-- Modelled from the spec: fullyConnectedPrepare on rank-2 weights
[unitsOut, unitsIn]: the batch count is the input element count divided by
unitsIn. -/
def fullyConnectedPrepare (inS weightsS biasS : Shape) : Option (List Nat) :=
  match weightsS.dimensions with
  | [unitsOut, unitsIn] =>
    if unitsIn = 0 then none
    else some [inS.dimensions.foldr (· * ·) 1 / unitsIn, unitsOut]
  | _ => none

/-- Modelled from the spec: concatenationPrepare: all inputs share rank,
type and every dimension except the concatenation axis, which is summed. -/
def concatenationPrepare (shapes : List Shape) (axis : Int) : Option (List Nat) :=
  match shapes with
  | [] => none
  | s0 :: rest =>
    let n := s0.dimensions.length
    if h : 0 ≤ axis ∧ axis < (n : Int) ∧ n ≤ 4 then
      let ax := axis.toNat
      if rest.all (fun s =>
          s.type = s0.type ∧ s.dimensions.length = n ∧
          ∀ i ∈ List.range n, i ≠ ax → s.dimensions.getD i 0 = s0.dimensions.getD i 0) then
        let total := (s0 :: rest).foldr (fun s acc => s.dimensions.getD ax 0 + acc) 0
        some ((List.range n).map (fun i => if i = ax then total else s0.dimensions.getD i 0))
      else none
    else none

/-- Modelled from the spec: reshapePrepare: the target dimensions come from
the int32 buffer of the target-shape operand; one entry may be -1 (inferred)
and the element count must be preserved. -/
def reshapePrepare (inS : Shape) (target : List Int) (numElem : Int) :
    Option (List Nat) :=
  let tgt := target.take numElem.toNat
  let inCount : Int := (inS.dimensions.foldr (· * ·) 1 : Nat)
  let negOnes := tgt.filter (fun v => v = -1)
  if negOnes.length = 0 then
    if tgt.foldr (· * ·) 1 = inCount ∧ tgt.all (fun v => 0 < v) then
      some (tgt.map Int.toNat)
    else none
  else if negOnes.length = 1 then
    let known := (tgt.filter (fun v => v ≠ -1))
    let kp := known.foldr (· * ·) 1
    if 0 < kp ∧ known.all (fun v => 0 < v) ∧ kp ∣ inCount then
      some (tgt.map (fun v => if v = -1 then (inCount / kp).toNat else v.toNat))
    else none
  else none

/-- Modelled from the spec: resizeBilinearPrepare on a rank-4 input with
positive requested width/height. -/
def resizeBilinearPrepare (inS : Shape) (width height : Int) : Option (List Nat) :=
  match inS.dimensions with
  | [b, _h, _w, d] =>
    if 0 < width ∧ 0 < height then some [b, height.toNat, width.toNat, d] else none
  | _ => none

/-- Modelled from the spec: implicit-to-explicit padding: SAME (code 1)
computes total = stride*(ceil(in/stride)-1) + filter - in, split with the
extra pixel on the trailing side; VALID (code 2) and unknown yield zero. -/
def calculateExplicitPadding (inSize : Nat) (stride filter scheme : Int) :
    Int × Int :=
  if scheme = 1 then
    if stride ≤ 0 then (0, 0)
    else
      let ceilDiv := ((inSize : Int) + stride - 1) / stride
      let total := max 0 (stride * (ceilDiv - 1) + filter - (inSize : Int))
      (total / 2, total - total / 2)
  else (0, 0)

/-- Modelled from the spec: getPaddingScheme classifies explicit padding:
all-zero is VALID (2); the SAME split of the filter size is SAME (1); any
other combination is unsupported (0). -/
def getPaddingScheme (filterW filterH padL padR padT padB : Int) : Nat :=
  if padL = 0 ∧ padR = 0 ∧ padT = 0 ∧ padB = 0 then 2
  else if padL = (filterW - 1) / 2 ∧ padR = filterW / 2 ∧
      padT = (filterH - 1) / 2 ∧ padB = filterH / 2 then 1
  else 0

/-- HexagonUtils getPadding(uint32_t). -/
def getPaddingOfScheme (scheme : Nat) : hexagon_nn_padding_type :=
  if scheme = 1 then .NN_PAD_SAME
  else if scheme = 2 then .NN_PAD_VALID
  else .NN_PAD_NA

/-- HexagonUtils getPadding(filter/padding geometry). -/
def getPadding6 (filterW filterH padL padR padT padB : Int) :
    hexagon_nn_padding_type :=
  getPaddingOfScheme (getPaddingScheme filterW filterH padL padR padT padB)

/-! ### Operation checks (HexagonOperationsCheck.cpp, first half)

Each C++ check reads operand metadata, runs the validator, and performs at
most one state effect: the final `model->setShape(outs[0], outShape)` (the
conv/fully-connected checks additionally test `isConstant` after it).  The
embedding therefore returns the verdict together with the dimensions to be
written to outs[0] (`none` when no write happened); `applyCheckWrite` plays
the setShape write back into the operand table. -/

/-- Verdict and optional outs[0]-dimension write of one operation check. -/
abbrev CheckResult := Bool × Option (List Nat)

/-- The setShape step shared by every check: fails when outs[0] already has
an output descriptor, otherwise records the dimension write. -/
def checkSetShape (env : List OperandInfo) (o : Nat) (d : List Nat) : CheckResult :=
  if (opAt env o).hexagon_output ≠ ({} : hexagon_nn_output) then (false, none)
  else (true, some d)

/-- addMul check (ADD / MUL): 3 inputs, 1 output, broadcastable shapes. -/
def addMul_check (ins outs : List Nat) (env : List OperandInfo) : CheckResult :=
  if ins.length ≠ 3 ∨ outs.length ≠ 1 then (false, none)
  else
    match addMulPrepare (getShapeP env (ins.getD 0 0)) (getShapeP env (ins.getD 1 0)) with
    | none => (false, none)
    | some d => checkSetShape env (outs.getD 0 0) d

/-- pool check (AVERAGE/L2/MAX_POOL_2D): 10 explicit-padding inputs (whose
padding must classify as SAME or VALID) or 7 implicit-padding inputs. -/
def pool_check (ins outs : List Nat) (env : List OperandInfo) : CheckResult :=
  let o := outs.getD 0 0
  let inS := getShapeP env (ins.getD 0 0)
  if ins.length = 10 then
    let padL := getScalarInt env (ins.getD 1 0)
    let padR := getScalarInt env (ins.getD 2 0)
    let padT := getScalarInt env (ins.getD 3 0)
    let padB := getScalarInt env (ins.getD 4 0)
    let strideW := getScalarInt env (ins.getD 5 0)
    let strideH := getScalarInt env (ins.getD 6 0)
    let filterW := getScalarInt env (ins.getD 7 0)
    let filterH := getScalarInt env (ins.getD 8 0)
    if getPadding6 filterW filterH padL padR padT padB = .NN_PAD_NA then (false, none)
    else
      match genericPoolingPrepare inS padL padR padT padB strideW strideH filterW filterH with
      | none => (false, none)
      | some d => checkSetShape env o d
  else if ins.length = 7 then
    let scheme := getScalarInt env (ins.getD 1 0)
    let strideW := getScalarInt env (ins.getD 2 0)
    let strideH := getScalarInt env (ins.getD 3 0)
    let filterW := getScalarInt env (ins.getD 4 0)
    let filterH := getScalarInt env (ins.getD 5 0)
    let pLR := calculateExplicitPadding (inS.dimensions.getD 2 0) strideW filterW scheme
    let pTB := calculateExplicitPadding (inS.dimensions.getD 1 0) strideH filterH scheme
    match genericPoolingPrepare inS pLR.1 pLR.2 pTB.1 pTB.2 strideW strideH filterW filterH with
    | none => (false, none)
    | some d => checkSetShape env o d
  else (false, none)

/-- concatenation check: at least 3 inputs (the last is the axis scalar),
1 output. -/
def concatenation_check (ins outs : List Nat) (env : List OperandInfo) : CheckResult :=
  if ins.length < 3 ∨ outs.length ≠ 1 then (false, none)
  else
    let n := ins.length - 1
    let axis := getScalarInt env (ins.getD n 0)
    let inShapes := (ins.take n).map (getShapeP env)
    match concatenationPrepare inShapes axis with
    | none => (false, none)
    | some d => checkSetShape env (outs.getD 0 0) d

/-- conv_2d check: 10 explicit-padding (classifiable) or 7 implicit-padding
inputs; the filter operand must be constant (tested after setShape). -/
def conv_2d_check (ins outs : List Nat) (env : List OperandInfo) : CheckResult :=
  if ¬ (ins.length = 10 ∨ ins.length = 7) ∨ outs.length ≠ 1 then (false, none)
  else
    let inS := getShapeP env (ins.getD 0 0)
    let filterS := getShapeP env (ins.getD 1 0)
    let biasS := getShapeP env (ins.getD 2 0)
    let finish := fun (r : Option (List Nat)) =>
      match r with
      | none => ((false, none) : CheckResult)
      | some d =>
        match checkSetShape env (outs.getD 0 0) d with
        | (false, w) => (false, w)
        | (true, w) => (isConstant env (ins.getD 1 0), w)
    if ins.length = 10 then
      let padL := getScalarInt env (ins.getD 3 0)
      let padR := getScalarInt env (ins.getD 4 0)
      let padT := getScalarInt env (ins.getD 5 0)
      let padB := getScalarInt env (ins.getD 6 0)
      let strideW := getScalarInt env (ins.getD 7 0)
      let strideH := getScalarInt env (ins.getD 8 0)
      if getPadding6 (filterS.dimensions.getD 2 0) (filterS.dimensions.getD 1 0)
          padL padR padT padB = .NN_PAD_NA then (false, none)
      else finish (convPrepare inS filterS biasS padL padR padT padB strideW strideH)
    else
      let scheme := getScalarInt env (ins.getD 3 0)
      let strideW := getScalarInt env (ins.getD 4 0)
      let strideH := getScalarInt env (ins.getD 5 0)
      let pLR := calculateExplicitPadding (inS.dimensions.getD 2 0) strideW
        (filterS.dimensions.getD 2 0) scheme
      let pTB := calculateExplicitPadding (inS.dimensions.getD 1 0) strideH
        (filterS.dimensions.getD 1 0) scheme
      finish (convPrepare inS filterS biasS pLR.1 pLR.2 pTB.1 pTB.2 strideW strideH)

/-- depthwise_conv_2d check: 11 explicit-padding (classifiable) or 8
implicit-padding inputs; constant filter tested after setShape. -/
def depthwise_conv_2d_check (ins outs : List Nat) (env : List OperandInfo) : CheckResult :=
  if ¬ (ins.length = 11 ∨ ins.length = 8) ∨ outs.length ≠ 1 then (false, none)
  else
    let inS := getShapeP env (ins.getD 0 0)
    let filterS := getShapeP env (ins.getD 1 0)
    let biasS := getShapeP env (ins.getD 2 0)
    let finish := fun (r : Option (List Nat)) =>
      match r with
      | none => ((false, none) : CheckResult)
      | some d =>
        match checkSetShape env (outs.getD 0 0) d with
        | (false, w) => (false, w)
        | (true, w) => (isConstant env (ins.getD 1 0), w)
    if ins.length = 11 then
      let padL := getScalarInt env (ins.getD 3 0)
      let padR := getScalarInt env (ins.getD 4 0)
      let padT := getScalarInt env (ins.getD 5 0)
      let padB := getScalarInt env (ins.getD 6 0)
      let strideW := getScalarInt env (ins.getD 7 0)
      let strideH := getScalarInt env (ins.getD 8 0)
      if getPadding6 (filterS.dimensions.getD 2 0) (filterS.dimensions.getD 1 0)
          padL padR padT padB = .NN_PAD_NA then (false, none)
      else finish (depthwiseConvPrepare inS filterS biasS padL padR padT padB strideW strideH)
    else
      let scheme := getScalarInt env (ins.getD 3 0)
      let strideW := getScalarInt env (ins.getD 4 0)
      let strideH := getScalarInt env (ins.getD 5 0)
      let pLR := calculateExplicitPadding (inS.dimensions.getD 2 0) strideW
        (filterS.dimensions.getD 2 0) scheme
      let pTB := calculateExplicitPadding (inS.dimensions.getD 1 0) strideH
        (filterS.dimensions.getD 1 0) scheme
      finish (depthwiseConvPrepare inS filterS biasS pLR.1 pLR.2 pTB.1 pTB.2 strideW strideH)

/-- dequantize check: 1 input, 1 output. -/
def dequantize_check (ins outs : List Nat) (env : List OperandInfo) : CheckResult :=
  if ins.length ≠ 1 ∨ outs.length ≠ 1 then (false, none)
  else
    match dequantizePrepare (getShapeP env (ins.getD 0 0)) with
    | none => (false, none)
    | some d => checkSetShape env (outs.getD 0 0) d

/-- fully_connected check: 4 inputs, 1 output; constant weights tested
after setShape. -/
def fully_connected_check (ins outs : List Nat) (env : List OperandInfo) : CheckResult :=
  if ins.length ≠ 4 ∨ outs.length ≠ 1 then (false, none)
  else
    match fullyConnectedPrepare (getShapeP env (ins.getD 0 0))
        (getShapeP env (ins.getD 1 0)) (getShapeP env (ins.getD 2 0)) with
    | none => (false, none)
    | some d =>
      match checkSetShape env (outs.getD 0 0) d with
      | (false, w) => (false, w)
      | (true, w) => (isConstant env (ins.getD 1 0), w)

/-- local_response_normalization check: 5 inputs, 1 output. -/
def lrn_check (ins outs : List Nat) (env : List OperandInfo) : CheckResult :=
  if ins.length ≠ 5 ∨ outs.length ≠ 1 then (false, none)
  else
    match genericNormalizationPrepare (getShapeP env (ins.getD 0 0)) with
    | none => (false, none)
    | some d => checkSetShape env (outs.getD 0 0) d

/-- activation check (logistic/relu/relu1/relu6/tanh need 1 input, softmax
needs 2): fixed input count, 1 output. -/
def activation_check (numInputs : Nat) (ins outs : List Nat)
    (env : List OperandInfo) : CheckResult :=
  if ins.length ≠ numInputs ∨ outs.length ≠ 1 then (false, none)
  else
    match genericActivationPrepare (getShapeP env (ins.getD 0 0)) with
    | none => (false, none)
    | some d => checkSetShape env (outs.getD 0 0) d

/-- reshape check: 2 inputs, 1 output; the target shape is read out of the
second operand's constant buffer. -/
def reshape_check (ins outs : List Nat) (env : List OperandInfo) : CheckResult :=
  if ins.length ≠ 2 ∨ outs.length ≠ 1 then (false, none)
  else
    let inS := getShapeP env (ins.getD 0 0)
    let targetS := getShapeP env (ins.getD 1 0)
    let target := (opAt env (ins.getD 1 0)).buffer
    let numElem : Int := (targetS.dimensions.foldr (· * ·) 1 : Nat)
    match reshapePrepare inS target numElem with
    | none => (false, none)
    | some d => checkSetShape env (outs.getD 0 0) d

/-- resize_bilinear check: 3 inputs, 1 output. -/
def resize_bilinear_check (ins outs : List Nat) (env : List OperandInfo) : CheckResult :=
  if ins.length ≠ 3 ∨ outs.length ≠ 1 then (false, none)
  else
    let width := getScalarInt env (ins.getD 1 0)
    let height := getScalarInt env (ins.getD 2 0)
    match resizeBilinearPrepare (getShapeP env (ins.getD 0 0)) width height with
    | none => (false, none)
    | some d => checkSetShape env (outs.getD 0 0) d

/-- getOperationCheckTable of src/1.0/HexagonOperationsCheck.cpp: the check
table is keyed by operation kind alone.  Absent kinds are unsupported. -/
def getOperationCheckTable : OperationType →
    Option (List Nat → List Nat → List OperandInfo → CheckResult)
  | .ADD => some addMul_check
  | .AVERAGE_POOL_2D => some pool_check
  | .CONCATENATION => some concatenation_check
  | .CONV_2D => some conv_2d_check
  | .DEPTHWISE_CONV_2D => some depthwise_conv_2d_check
  | .DEQUANTIZE => some dequantize_check
  | .FULLY_CONNECTED => some fully_connected_check
  | .L2_POOL_2D => some pool_check
  | .LOCAL_RESPONSE_NORMALIZATION => some lrn_check
  | .LOGISTIC => some (activation_check 1)
  | .MAX_POOL_2D => some pool_check
  | .MUL => some addMul_check
  | .RELU => some (activation_check 1)
  | .RELU1 => some (activation_check 1)
  | .RELU6 => some (activation_check 1)
  | .RESHAPE => some reshape_check
  | .RESIZE_BILINEAR => some resize_bilinear_check
  | .SOFTMAX => some (activation_check 2)
  | .TANH => some (activation_check 1)
  | _ => none

/-- First output operand index of an operation (the single setShape
target of every check and the registration target of every lowering). -/
def outs0 (op : Operation) : Nat := op.outputs.getD 0 0

/-- Play one check's setShape write back into the operand table. -/
def applyCheckWrite (k : Nat) (w : Option (List Nat))
    (env : List OperandInfo) : List OperandInfo :=
  match w with
  | none => env
  | some d => setOp env k { opAt env k with dimensions := d }

/-- Table lookup plus check run (the verdict and pending setShape write of
one operation); unknown kinds are unsupported. -/
def checkRunTable (op : Operation) (env : List OperandInfo) : CheckResult :=
  match getOperationCheckTable op.type with
  | none => (false, none)
  | some f => f op.inputs op.outputs env

/-- One iteration of Model::supportedOperations: table lookup, run the
check, apply its setShape effect. -/
def runCheck1 (op : Operation) (env : List OperandInfo) :
    Bool × List OperandInfo :=
  let r := checkRunTable op env
  (r.1, applyCheckWrite (outs0 op) r.2 env)

/-- An operand record with its dimensions blanked: the projection of the
operand state the checks never write. -/
def stripDims (o : OperandInfo) : OperandInfo := { o with dimensions := [] }

/-- Structural well-formedness of an operation list, as the NN model
validity rules require: no operation reads an operand produced by itself or
by a later operation (the list is topologically ordered), and no two
operations write the same first output operand. -/
def wfOps : List Operation → Bool
  | [] => true
  | op :: rest =>
    op.inputs.all (fun x => decide (x ∉ (op :: rest).map outs0)) &&
      decide (outs0 op ∉ rest.map outs0) && wfOps rest

/-- The supportedOperations loop over the operation list. -/
def runChecks : List Operation → List OperandInfo →
    List Bool × List OperandInfo
  | [], env => ([], env)
  | op :: rest, env =>
    let (b, env1) := runCheck1 op env
    let (bs, env2) := runChecks rest env1
    (b :: bs, env2)

/-- Model::supportedOperations. -/
def Model.supportedOperations (s : MState) : List Bool × MState :=
  let (bs, env) := runChecks s.operations s.core.operands
  (bs, { s with core := { s.core with operands := env } })

/-- Model::verifyOperations: every operation must check as supported. -/
def Model.verifyOperations (s : MState) : Bool × MState :=
  let (bs, s1) := Model.supportedOperations s
  (bs.all (fun b => b = true), s1)

/-- Model::verifyOperands: every operand dimension must be nonzero. -/
def Model.verifyOperands (s : MState) : Bool :=
  s.core.operands.all (fun o => o.dimensions.all (fun d => decide (d ≠ 0)))

end Hvx

namespace Hvx

/-! ### Operation lowering functions (HexagonOperationsPrepare half of
src/1.0/HexagonOperationsCheck.cpp).  Each takes the fixed-position operand
indices and emits the corresponding accelerator nodes. -/

/-- The lowering function type: (graph id, controller, inputs, outputs,
core) to (success, core). -/
abbrev PrepFn := Nat → Ctrl → List Nat → List Nat → Core → Bool × Core

/-- float32::add. -/
def f32_add : PrepFn := fun gid ctrl ins outs c =>
  match ins with
  | [a0, a1, a2] =>
    let (in1, c1) := getTensor gid ctrl a0 c
    let (in2, c2) := getTensor gid ctrl a1 c1
    let act := getFloatActivation c2.operands a2
    addFusedFloatOperation gid ctrl .OP_Add_f .NN_PAD_NA {} act [in1, in2] outs c2
  | _ => (false, c)

/-- float32::average_pool_2d (requires exactly 10 inputs). -/
def f32_average_pool_2d : PrepFn := fun gid ctrl ins outs c =>
  match ins with
  | [a0, a1, a2, a3, a4, a5, a6, a7, a8, a9] =>
    let (input, c1) := getTensor gid ctrl a0 c
    let padL := getScalarInt c1.operands a1
    let padR := getScalarInt c1.operands a2
    let padT := getScalarInt c1.operands a3
    let padB := getScalarInt c1.operands a4
    let strideW := getScalarInt c1.operands a5
    let strideH := getScalarInt c1.operands a6
    let filterW := getScalarInt c1.operands a7
    let filterH := getScalarInt c1.operands a8
    let act := getFloatActivation c1.operands a9
    let (window, c2) := createShape gid ctrl 1 (u32 filterH) (u32 filterW) 1 c1
    let (stride, c3) := createShape gid ctrl 1 (u32 strideH) (u32 strideW) 1 c2
    let pad := getPadding6 filterW filterH padL padR padT padB
    addFloatOperationWithActivation gid ctrl .OP_AvgPool_f pad act
      [input, window, stride] outs c3
  | _ => (false, c)

/-- float32::concatenation. -/
def f32_concatenation : PrepFn := fun gid ctrl ins outs c =>
  if ins.length < 3 ∨ outs.length ≠ 1 then (false, c)
  else
    let n := ins.length - 1
    let rec go : List Nat → Core → List hexagon_nn_input × Core
      | [], c => ([], c)
      | k :: rest, c =>
        let (h, c1) := getTensor gid ctrl k c
        let (hs, c2) := go rest c1
        (h :: hs, c2)
    let (tensors, c1) := go (ins.take n) c
    let axis := getScalarInt c1.operands (ins.getD n 0)
    let dims : Int := (getShapeP c1.operands (ins.getD 0 0)).dimensions.length
    let (scalar, c2) := createScalarI gid ctrl (axis + (4 - dims)) c1
    addBasicOperation gid ctrl .OP_Concat_f .NN_PAD_NA (scalar :: tensors) outs c2

/-- float32::conv_2d (requires exactly 10 inputs). -/
def f32_conv_2d : PrepFn := fun gid ctrl ins outs c =>
  match ins with
  | [a0, a1, a2, a3, a4, a5, a6, a7, a8, a9] =>
    let (input, c1) := getTensor gid ctrl a0 c
    let (filter, c2) := createConvFilterTensor gid ctrl a1 c1
    let (bias, c3) := getTensor gid ctrl a2 c2
    let padL := getScalarInt c3.operands a3
    let padR := getScalarInt c3.operands a4
    let padT := getScalarInt c3.operands a5
    let padB := getScalarInt c3.operands a6
    let strideW := getScalarInt c3.operands a7
    let strideH := getScalarInt c3.operands a8
    let act := getFloatActivation c3.operands a9
    let (stride, c4) := createShape gid ctrl 1 (u32 strideH) (u32 strideW) 1 c3
    let filterShape := getShapeP c4.operands a1
    let pad := getPadding6 (filterShape.dimensions.getD 2 0)
      (filterShape.dimensions.getD 1 0) padL padR padT padB
    addFusedFloatOperation gid ctrl .OP_Conv2d_f pad bias act
      [input, filter, stride] outs c4
  | _ => (false, c)

/-- float32::depthwise_conv_2d (requires exactly 11 inputs). -/
def f32_depthwise_conv_2d : PrepFn := fun gid ctrl ins outs c =>
  match ins with
  | [a0, a1, a2, a3, a4, a5, a6, a7, a8, a9, a10] =>
    let (input, c1) := getTensor gid ctrl a0 c
    let (bias, c2) := getTensor gid ctrl a2 c1
    let padL := getScalarInt c2.operands a3
    let padR := getScalarInt c2.operands a4
    let padT := getScalarInt c2.operands a5
    let padB := getScalarInt c2.operands a6
    let strideW := getScalarInt c2.operands a7
    let strideH := getScalarInt c2.operands a8
    let depthMultiplier := getScalarInt c2.operands a9
    let act := getFloatActivation c2.operands a10
    let (filter, c3) := createDepthwiseFilterTensor gid ctrl a1 depthMultiplier c2
    let (stride, c4) := createShape gid ctrl 1 (u32 strideH) (u32 strideW) 1 c3
    let filterShape := getShapeP c4.operands a1
    let pad := getPadding6 (filterShape.dimensions.getD 2 0)
      (filterShape.dimensions.getD 1 0) padL padR padT padB
    addFusedFloatOperation gid ctrl .OP_DepthwiseConv2d_f pad bias act
      [input, filter, stride] outs c4
  | _ => (false, c)

/-- float32::fully_connected. -/
def f32_fully_connected : PrepFn := fun gid ctrl ins outs c =>
  match ins with
  | [a0, a1, a2, a3] =>
    let (input, c1) := getTensor gid ctrl a0 c
    let (weights, c2) := createFullyConnectedWeightTensor gid ctrl a1 c1
    let (bias, c3) := getTensor gid ctrl a2 c2
    let act := getFloatActivation c3.operands a3
    addFusedFloatOperation gid ctrl .OP_MatMul_f .NN_PAD_NA bias act
      [input, weights] outs c3
  | _ => (false, c)

/-- float32::l2_pool_2d (requires exactly 10 inputs). -/
def f32_l2_pool_2d : PrepFn := fun gid ctrl ins outs c =>
  match ins with
  | [a0, a1, a2, a3, a4, a5, a6, a7, a8, a9] =>
    let (input, c1) := getTensor gid ctrl a0 c
    let padL := getScalarInt c1.operands a1
    let padR := getScalarInt c1.operands a2
    let padT := getScalarInt c1.operands a3
    let padB := getScalarInt c1.operands a4
    let strideW := getScalarInt c1.operands a5
    let strideH := getScalarInt c1.operands a6
    let filterW := getScalarInt c1.operands a7
    let filterH := getScalarInt c1.operands a8
    let act := getFloatActivation c1.operands a9
    let (window, c2) := createShape gid ctrl 1 (u32 filterH) (u32 filterW) 1 c1
    let (stride, c3) := createShape gid ctrl 1 (u32 strideH) (u32 strideW) 1 c2
    let pad := getPadding6 filterW filterH padL padR padT padB
    addFloatOperationWithActivation gid ctrl .OP_L2Pool_f pad act
      [input, window, stride] outs c3
  | _ => (false, c)

/-- float32::local_response_normalization. -/
def f32_lrn : PrepFn := fun gid ctrl ins outs c =>
  match ins with
  | [a0, a1, a2, a3, a4] =>
    let (input, c1) := getTensor gid ctrl a0 c
    let (bias, c2) := getTensor gid ctrl a2 c1
    let (alpha, c3) := getTensor gid ctrl a3 c2
    let (beta, c4) := getTensor gid ctrl a4 c3
    let radius := getScalarInt c4.operands a1
    let (window, c5) := createTensorF gid ctrl 1 1 1 (u32 (radius * 2 + 1)) [1] c4
    addBasicOperation gid ctrl .OP_LRN_f .NN_PAD_NA
      [input, window, bias, alpha, beta] outs c5
  | _ => (false, c)

/-- float32::logistic. -/
def f32_logistic : PrepFn := fun gid ctrl ins outs c =>
  match ins with
  | [a0] =>
    let (input, c1) := getTensor gid ctrl a0 c
    addBasicOperation gid ctrl .OP_Sigmoid_f .NN_PAD_NA [input] outs c1
  | _ => (false, c)

/-- float32::max_pool_2d (requires exactly 10 inputs). -/
def f32_max_pool_2d : PrepFn := fun gid ctrl ins outs c =>
  match ins with
  | [a0, a1, a2, a3, a4, a5, a6, a7, a8, a9] =>
    let (input, c1) := getTensor gid ctrl a0 c
    let padL := getScalarInt c1.operands a1
    let padR := getScalarInt c1.operands a2
    let padT := getScalarInt c1.operands a3
    let padB := getScalarInt c1.operands a4
    let strideW := getScalarInt c1.operands a5
    let strideH := getScalarInt c1.operands a6
    let filterW := getScalarInt c1.operands a7
    let filterH := getScalarInt c1.operands a8
    let act := getFloatActivation c1.operands a9
    let (window, c2) := createShape gid ctrl 1 (u32 filterH) (u32 filterW) 1 c1
    let (stride, c3) := createShape gid ctrl 1 (u32 strideH) (u32 strideW) 1 c2
    let pad := getPadding6 filterW filterH padL padR padT padB
    addFloatOperationWithActivation gid ctrl .OP_MaxPool_f pad act
      [input, window, stride] outs c3
  | _ => (false, c)

/-- float32::mul. -/
def f32_mul : PrepFn := fun gid ctrl ins outs c =>
  match ins with
  | [a0, a1, a2] =>
    let (in1, c1) := getTensor gid ctrl a0 c
    let (in2, c2) := getTensor gid ctrl a1 c1
    let act := getFloatActivation c2.operands a2
    addFusedFloatOperation gid ctrl .OP_Mul_f .NN_PAD_NA {} act [in1, in2] outs c2
  | _ => (false, c)

/-- float32::relu. -/
def f32_relu : PrepFn := fun gid ctrl ins outs c =>
  match ins with
  | [a0] =>
    let (input, c1) := getTensor gid ctrl a0 c
    addBasicOperation gid ctrl .OP_Relu_f .NN_PAD_NA [input] outs c1
  | _ => (false, c)

/-- float32::relu1: standalone RELU1 lowers to the Clamp node over
[-1.0, 1.0]. -/
def f32_relu1 : PrepFn := fun gid ctrl ins outs c =>
  match ins with
  | [a0] =>
    let (input, c1) := getTensor gid ctrl a0 c
    let (minH, c2) := createScalarF gid ctrl (-1) c1
    let (maxH, c3) := createScalarF gid ctrl 1 c2
    addBasicOperation gid ctrl .OP_Clamp_f .NN_PAD_NA [input, minH, maxH] outs c3
  | _ => (false, c)

/-- float32::relu6: standalone RELU6 lowers to the bounded-relu node with
max constant 6.0. -/
def f32_relu6 : PrepFn := fun gid ctrl ins outs c =>
  match ins with
  | [a0] =>
    let (input, c1) := getTensor gid ctrl a0 c
    let (maxH, c2) := createScalarF gid ctrl 6 c1
    addBasicOperation gid ctrl .OP_ReluX_f .NN_PAD_NA [input, maxH] outs c2
  | _ => (false, c)

/-- float32::reshape. -/
def f32_reshape : PrepFn := fun gid ctrl ins outs c =>
  match ins with
  | [a0, a1] =>
    let (input, c1) := getTensor gid ctrl a0 c
    let (newdims, c2) := getTensor gid ctrl a1 c1
    addBasicOperation gid ctrl .OP_Reshape .NN_PAD_NA [input, newdims] outs c2
  | _ => (false, c)

/-- float32::resize_bilinear. -/
def f32_resize_bilinear : PrepFn := fun gid ctrl ins outs c =>
  match ins with
  | [a0, a1, a2] =>
    let (input, c1) := getTensor gid ctrl a0 c
    let width := getScalarInt c1.operands a1
    let height := getScalarInt c1.operands a2
    let (newdim, c2) := createTensorInternal gid ctrl 1 1 1 2
      (.ints [height, width]) 8 c1
    addBasicOperation gid ctrl .OP_ResizeBilinear_f .NN_PAD_NA [input, newdim] outs c2
  | _ => (false, c)

/-- float32::softmax. -/
def f32_softmax : PrepFn := fun gid ctrl ins outs c =>
  match ins with
  | [a0, a1] =>
    let (input, c1) := getTensor gid ctrl a0 c
    let (beta, c2) := getTensor gid ctrl a1 c1
    addBasicOperation gid ctrl .OP_Softmax_f .NN_PAD_NA [input, beta] outs c2
  | _ => (false, c)

/-- float32::tanh. -/
def f32_tanh : PrepFn := fun gid ctrl ins outs c =>
  match ins with
  | [a0] =>
    let (input, c1) := getTensor gid ctrl a0 c
    addBasicOperation gid ctrl .OP_Tanh_f .NN_PAD_NA [input] outs c1
  | _ => (false, c)

/-- quant8_asym::add. -/
def q8_add : PrepFn := fun gid ctrl ins outs c =>
  match ins with
  | [a0, a1, a2] =>
    let (in1, c1) := getTensor gid ctrl a0 c
    let (in2, c2) := getTensor gid ctrl a1 c1
    let act := getQuantizedActivation c2.operands a2
    let (in1min, c3) := getQuantizationMin gid ctrl a0 c2
    let (in1max, c4) := getQuantizationMax gid ctrl a0 c3
    let (in2min, c5) := getQuantizationMin gid ctrl a1 c4
    let (in2max, c6) := getQuantizationMax gid ctrl a1 c5
    addFusedQuant8Operation gid ctrl .OP_QuantizedAdd_8p8to32 .NN_PAD_NA {} act
      [in1, in1min, in1max, in2, in2min, in2max] outs c6
  | _ => (false, c)

/-- quant8_asym::average_pool_2d (requires exactly 10 inputs). -/
def q8_average_pool_2d : PrepFn := fun gid ctrl ins outs c =>
  match ins with
  | [a0, a1, a2, a3, a4, a5, a6, a7, a8, a9] =>
    let (input, c1) := getTensor gid ctrl a0 c
    let padL := getScalarInt c1.operands a1
    let padR := getScalarInt c1.operands a2
    let padT := getScalarInt c1.operands a3
    let padB := getScalarInt c1.operands a4
    let strideW := getScalarInt c1.operands a5
    let strideH := getScalarInt c1.operands a6
    let filterW := getScalarInt c1.operands a7
    let filterH := getScalarInt c1.operands a8
    let act := getQuantizedActivation c1.operands a9
    let (inMin, c2) := getQuantizationMin gid ctrl a0 c1
    let (inMax, c3) := getQuantizationMax gid ctrl a0 c2
    let (window, c4) := createShape gid ctrl 1 (u32 filterH) (u32 filterW) 1 c3
    let (stride, c5) := createShape gid ctrl 1 (u32 strideH) (u32 strideW) 1 c4
    let pad := getPadding6 filterW filterH padL padR padT padB
    addQuant8OperationWithActivation gid ctrl .OP_QuantizedAvgPool_8 pad act
      [input, inMin, inMax, window, stride] outs c5
  | _ => (false, c)

/-- quant8_asym::concatenation. -/
def q8_concatenation : PrepFn := fun gid ctrl ins outs c =>
  if ins.length < 3 ∨ outs.length ≠ 1 then (false, c)
  else
    let n := ins.length - 1
    let rec go : List Nat → Core →
        (List hexagon_nn_input × List hexagon_nn_input × List hexagon_nn_input) × Core
      | [], c => (([], [], []), c)
      | k :: rest, c =>
        let (h, c1) := getTensor gid ctrl k c
        let (mn, c2) := getQuantizationMin gid ctrl k c1
        let (mx, c3) := getQuantizationMax gid ctrl k c2
        let ((hs, mns, mxs), c4) := go rest c3
        ((h :: hs, mn :: mns, mx :: mxs), c4)
    let ((tensors, mins, maxes), c1) := go (ins.take n) c
    let axis := getScalarInt c1.operands (ins.getD n 0)
    let dims : Int := (getShapeP c1.operands (ins.getD 0 0)).dimensions.length
    let (scalar, c2) := createScalarI gid ctrl (axis + (4 - dims)) c1
    addBasicOperation gid ctrl .OP_QuantizedConcat_8 .NN_PAD_NA
      (scalar :: (tensors ++ mins ++ maxes)) outs c2

/-- quant8_asym::conv_2d (requires exactly 10 inputs). -/
def q8_conv_2d : PrepFn := fun gid ctrl ins outs c =>
  match ins with
  | [a0, a1, a2, a3, a4, a5, a6, a7, a8, a9] =>
    let (input, c1) := getTensor gid ctrl a0 c
    let (filter, c2) := createConvFilterTensor gid ctrl a1 c1
    let (bias, c3) := getTensor gid ctrl a2 c2
    let padL := getScalarInt c3.operands a3
    let padR := getScalarInt c3.operands a4
    let padT := getScalarInt c3.operands a5
    let padB := getScalarInt c3.operands a6
    let strideW := getScalarInt c3.operands a7
    let strideH := getScalarInt c3.operands a8
    let act := getQuantizedActivation c3.operands a9
    let (inputMin, c4) := getQuantizationMin gid ctrl a0 c3
    let (inputMax, c5) := getQuantizationMax gid ctrl a0 c4
    let (filterMin, c6) := getQuantizationMin gid ctrl a1 c5
    let (filterMax, c7) := getQuantizationMax gid ctrl a1 c6
    let (stride, c8) := createShape gid ctrl 1 (u32 strideH) (u32 strideW) 1 c7
    let filterShape := getShapeP c8.operands a1
    let pad := getPadding6 (filterShape.dimensions.getD 2 0)
      (filterShape.dimensions.getD 1 0) padL padR padT padB
    addFusedQuant8Operation gid ctrl .OP_QuantizedConv2d_8x8to32 pad bias act
      [input, filter, inputMin, inputMax, filterMin, filterMax, stride] outs c8
  | _ => (false, c)

/-- quant8_asym::depthwise_conv_2d (requires exactly 11 inputs; note the
source reads the filter range from ins[0]). -/
def q8_depthwise_conv_2d : PrepFn := fun gid ctrl ins outs c =>
  match ins with
  | [a0, a1, a2, a3, a4, a5, a6, a7, a8, a9, a10] =>
    let (input, c1) := getTensor gid ctrl a0 c
    let (bias, c2) := getTensor gid ctrl a2 c1
    let padL := getScalarInt c2.operands a3
    let padR := getScalarInt c2.operands a4
    let padT := getScalarInt c2.operands a5
    let padB := getScalarInt c2.operands a6
    let strideW := getScalarInt c2.operands a7
    let strideH := getScalarInt c2.operands a8
    let depthMultiplier := getScalarInt c2.operands a9
    let act := getQuantizedActivation c2.operands a10
    let (inputMin, c3) := getQuantizationMin gid ctrl a0 c2
    let (inputMax, c4) := getQuantizationMax gid ctrl a0 c3
    let (filterMin, c5) := getQuantizationMin gid ctrl a0 c4
    let (filterMax, c6) := getQuantizationMax gid ctrl a0 c5
    let (filter, c7) := createDepthwiseFilterTensor gid ctrl a1 depthMultiplier c6
    let (stride, c8) := createShape gid ctrl 1 (u32 strideH) (u32 strideW) 1 c7
    let filterShape := getShapeP c8.operands a1
    let pad := getPadding6 (filterShape.dimensions.getD 2 0)
      (filterShape.dimensions.getD 1 0) padL padR padT padB
    addFusedQuant8Operation gid ctrl .OP_QuantizedDepthwiseConv2d_8x8to32 pad bias act
      [input, filter, inputMin, inputMax, filterMin, filterMax, stride] outs c8
  | _ => (false, c)

/-- quant8_asym::dequantize. -/
def q8_dequantize : PrepFn := fun gid ctrl ins outs c =>
  match ins with
  | [a0] =>
    let (input, c1) := getTensor gid ctrl a0 c
    let (inputMin, c2) := getQuantizationMin gid ctrl a0 c1
    let (inputMax, c3) := getQuantizationMax gid ctrl a0 c2
    addBasicOperation gid ctrl .OP_Dequantize .NN_PAD_NA
      [input, inputMin, inputMax] outs c3
  | _ => (false, c)

/-- quant8_asym::fully_connected. -/
def q8_fully_connected : PrepFn := fun gid ctrl ins outs c =>
  match ins with
  | [a0, a1, a2, a3] =>
    let (input, c1) := getTensor gid ctrl a0 c
    let (weights, c2) := getTensor gid ctrl a1 c1
    let (bias, c3) := getTensor gid ctrl a2 c2
    let act := getQuantizedActivation c3.operands a3
    let (inputMin, c4) := getQuantizationMin gid ctrl a0 c3
    let (inputMax, c5) := getQuantizationMax gid ctrl a0 c4
    let (weightsMin, c6) := getQuantizationMin gid ctrl a1 c5
    let (weightsMax, c7) := getQuantizationMax gid ctrl a1 c6
    addFusedQuant8Operation gid ctrl .OP_QuantizedMatMul_8x8to32 .NN_PAD_NA bias act
      [input, weights, inputMin, inputMax, weightsMin, weightsMax] outs c7
  | _ => (false, c)

/-- quant8_asym::logistic: the max range is the quantization value of 256
(the TFLite convention), not the natural max. -/
def q8_logistic : PrepFn := fun gid ctrl ins outs c =>
  match ins with
  | [a0] =>
    let (input, c1) := getTensor gid ctrl a0 c
    let (inputMin, c2) := getQuantizationMin gid ctrl a0 c1
    let (inputMax, c3) := createQuantizationValue gid ctrl a0 256 c2
    addBasicOperation gid ctrl .OP_QuantizedSigmoid_8 .NN_PAD_NA
      [input, inputMin, inputMax] outs c3
  | _ => (false, c)

/-- quant8_asym::max_pool_2d (requires exactly 10 inputs). -/
def q8_max_pool_2d : PrepFn := fun gid ctrl ins outs c =>
  match ins with
  | [a0, a1, a2, a3, a4, a5, a6, a7, a8, a9] =>
    let (input, c1) := getTensor gid ctrl a0 c
    let padL := getScalarInt c1.operands a1
    let padR := getScalarInt c1.operands a2
    let padT := getScalarInt c1.operands a3
    let padB := getScalarInt c1.operands a4
    let strideW := getScalarInt c1.operands a5
    let strideH := getScalarInt c1.operands a6
    let filterW := getScalarInt c1.operands a7
    let filterH := getScalarInt c1.operands a8
    let act := getQuantizedActivation c1.operands a9
    let (inputMin, c2) := getQuantizationMin gid ctrl a0 c1
    let (inputMax, c3) := getQuantizationMax gid ctrl a0 c2
    let (window, c4) := createShape gid ctrl 1 (u32 filterH) (u32 filterW) 1 c3
    let (stride, c5) := createShape gid ctrl 1 (u32 strideH) (u32 strideW) 1 c4
    let pad := getPadding6 filterW filterH padL padR padT padB
    addQuant8OperationWithActivation gid ctrl .OP_QuantizedMaxPool_8 pad act
      [input, inputMin, inputMax, window, stride] outs c5
  | _ => (false, c)

/-- quant8_asym::mul. -/
def q8_mul : PrepFn := fun gid ctrl ins outs c =>
  match ins with
  | [a0, a1, a2] =>
    let (in1, c1) := getTensor gid ctrl a0 c
    let (in2, c2) := getTensor gid ctrl a1 c1
    let act := getQuantizedActivation c2.operands a2
    let (in1min, c3) := getQuantizationMin gid ctrl a0 c2
    let (in1max, c4) := getQuantizationMax gid ctrl a0 c3
    let (in2min, c5) := getQuantizationMin gid ctrl a1 c4
    let (in2max, c6) := getQuantizationMax gid ctrl a1 c5
    addFusedQuant8Operation gid ctrl .OP_QuantizedMul_8x8to32 .NN_PAD_NA {} act
      [in1, in1min, in1max, in2, in2min, in2max] outs c6
  | _ => (false, c)

/-- quant8_asym::relu. -/
def q8_relu : PrepFn := fun gid ctrl ins outs c =>
  match ins with
  | [a0] =>
    let (input, c1) := getTensor gid ctrl a0 c
    let (inputMin, c2) := getQuantizationMin gid ctrl a0 c1
    let (inputMax, c3) := getQuantizationMax gid ctrl a0 c2
    addBasicOperation gid ctrl .OP_QuantizedRelu_8 .NN_PAD_NA
      [input, inputMin, inputMax] outs c3
  | _ => (false, c)

/-- quant8_asym::relu1: standalone RELU1 lowers to the quantized Clamp node
over [-1.0, 1.0]. -/
def q8_relu1 : PrepFn := fun gid ctrl ins outs c =>
  match ins with
  | [a0] =>
    let (input, c1) := getTensor gid ctrl a0 c
    let (minH, c2) := createScalarF gid ctrl (-1) c1
    let (maxH, c3) := createScalarF gid ctrl 1 c2
    let (inputMin, c4) := getQuantizationMin gid ctrl a0 c3
    let (inputMax, c5) := getQuantizationMax gid ctrl a0 c4
    addBasicOperation gid ctrl .OP_QuantizedClamp_8 .NN_PAD_NA
      [input, inputMin, inputMax, minH, maxH] outs c5
  | _ => (false, c)

/-- quant8_asym::relu6: standalone RELU6 lowers to the quantized
bounded-relu node with max constant 6.0. -/
def q8_relu6 : PrepFn := fun gid ctrl ins outs c =>
  match ins with
  | [a0] =>
    let (input, c1) := getTensor gid ctrl a0 c
    let (maxH, c2) := createScalarF gid ctrl 6 c1
    let (inputMin, c3) := getQuantizationMin gid ctrl a0 c2
    let (inputMax, c4) := getQuantizationMax gid ctrl a0 c3
    addBasicOperation gid ctrl .OP_QuantizedReluX_8 .NN_PAD_NA
      [input, inputMin, inputMax, maxH] outs c4
  | _ => (false, c)

/-- quant8_asym::reshape. -/
def q8_reshape : PrepFn := fun gid ctrl ins outs c =>
  match ins with
  | [a0, a1] =>
    let (input, c1) := getTensor gid ctrl a0 c
    let (newdims, c2) := getTensor gid ctrl a1 c1
    let (inputMin, c3) := getQuantizationMin gid ctrl a0 c2
    let (inputMax, c4) := getQuantizationMax gid ctrl a0 c3
    addBasicOperation gid ctrl .OP_QuantizedReshape .NN_PAD_NA
      [input, newdims, inputMin, inputMax] outs c4
  | _ => (false, c)

/-- quant8_asym::softmax. -/
def q8_softmax : PrepFn := fun gid ctrl ins outs c =>
  match ins with
  | [a0, a1] =>
    let (input, c1) := getTensor gid ctrl a0 c
    let (beta, c2) := getTensor gid ctrl a1 c1
    let (inputMin, c3) := getQuantizationMin gid ctrl a0 c2
    let (inputMax, c4) := getQuantizationMax gid ctrl a0 c3
    addBasicOperation gid ctrl .OP_QuantizedSoftmax_8 .NN_PAD_NA
      [input, inputMin, inputMax, beta] outs c4
  | _ => (false, c)

/-- getOperationPrepareTable: the lowering table is keyed by (operation
kind, numeric representation of the first input). -/
def getOperationPrepareTable : OperationType × OperandType → Option PrepFn
  | (.ADD, .TENSOR_FLOAT32) => some f32_add
  | (.AVERAGE_POOL_2D, .TENSOR_FLOAT32) => some f32_average_pool_2d
  | (.CONCATENATION, .TENSOR_FLOAT32) => some f32_concatenation
  | (.CONV_2D, .TENSOR_FLOAT32) => some f32_conv_2d
  | (.DEPTHWISE_CONV_2D, .TENSOR_FLOAT32) => some f32_depthwise_conv_2d
  | (.FULLY_CONNECTED, .TENSOR_FLOAT32) => some f32_fully_connected
  | (.L2_POOL_2D, .TENSOR_FLOAT32) => some f32_l2_pool_2d
  | (.LOCAL_RESPONSE_NORMALIZATION, .TENSOR_FLOAT32) => some f32_lrn
  | (.LOGISTIC, .TENSOR_FLOAT32) => some f32_logistic
  | (.MAX_POOL_2D, .TENSOR_FLOAT32) => some f32_max_pool_2d
  | (.MUL, .TENSOR_FLOAT32) => some f32_mul
  | (.RELU, .TENSOR_FLOAT32) => some f32_relu
  | (.RELU1, .TENSOR_FLOAT32) => some f32_relu1
  | (.RELU6, .TENSOR_FLOAT32) => some f32_relu6
  | (.RESHAPE, .TENSOR_FLOAT32) => some f32_reshape
  | (.RESIZE_BILINEAR, .TENSOR_FLOAT32) => some f32_resize_bilinear
  | (.SOFTMAX, .TENSOR_FLOAT32) => some f32_softmax
  | (.TANH, .TENSOR_FLOAT32) => some f32_tanh
  | (.ADD, .TENSOR_QUANT8_ASYMM) => some q8_add
  | (.AVERAGE_POOL_2D, .TENSOR_QUANT8_ASYMM) => some q8_average_pool_2d
  | (.CONCATENATION, .TENSOR_QUANT8_ASYMM) => some q8_concatenation
  | (.CONV_2D, .TENSOR_QUANT8_ASYMM) => some q8_conv_2d
  | (.DEPTHWISE_CONV_2D, .TENSOR_QUANT8_ASYMM) => some q8_depthwise_conv_2d
  | (.DEQUANTIZE, .TENSOR_QUANT8_ASYMM) => some q8_dequantize
  | (.FULLY_CONNECTED, .TENSOR_QUANT8_ASYMM) => some q8_fully_connected
  | (.LOGISTIC, .TENSOR_QUANT8_ASYMM) => some q8_logistic
  | (.MAX_POOL_2D, .TENSOR_QUANT8_ASYMM) => some q8_max_pool_2d
  | (.MUL, .TENSOR_QUANT8_ASYMM) => some q8_mul
  | (.RELU, .TENSOR_QUANT8_ASYMM) => some q8_relu
  | (.RELU1, .TENSOR_QUANT8_ASYMM) => some q8_relu1
  | (.RELU6, .TENSOR_QUANT8_ASYMM) => some q8_relu6
  | (.RESHAPE, .TENSOR_QUANT8_ASYMM) => some q8_reshape
  | (.SOFTMAX, .TENSOR_QUANT8_ASYMM) => some q8_softmax
  | _ => none

end Hvx

namespace Hvx

/-! ### Graph construction and the Model entry points (HexagonModel.cpp,
PreparedModel.cpp, Device.cpp). -/

/-- Helper of Model::addInputs: bind each input operand's handle to the
single OP_INPUT node's successive output slots. -/
def bindInputHandles (node : Nat) : List Nat → Nat → List OperandInfo →
    List OperandInfo
  | [], _, env => env
  | i :: rest, slot, env =>
    bindInputHandles node rest (slot + 1)
      (setOp env i { opAt env i with
        hexagon_input := { src_id := node, output_idx := slot } })

/-- Model::addInputs: one OP_INPUT node producing one output per declared
model input; note the handle binding is unconditional. -/
def addInputs (gid : Nat) (ctrl : Ctrl) (inputsIdx : List Nat) (c : Core) :
    Bool × Core :=
  let outs := inputsIdx.map (fun i =>
    make_hexagon_nn_output (opAt c.operands i).dimensions (getSize (opAt c.operands i).type))
  let (node, c1) := addOperationInternal gid ctrl .OP_INPUT .NN_PAD_NA [] outs c
  if node = 0 then (false, c1)
  else (true, { c1 with operands := bindInputHandles node inputsIdx 0 c1.operands })

/-- Model::addOperations: iterate the operation list, dispatching on
(operation kind, first-input operand kind); a missing table entry or a
failed lowering is fatal. -/
def addOperations (gid : Nat) (ctrl : Ctrl) :
    List Operation → Core → Bool × Core
  | [], c => (true, c)
  | op :: rest, c =>
    let opndType := (opAt c.operands (op.inputs.getD 0 0)).type
    match getOperationPrepareTable (op.type, opndType) with
    | none => (false, c)
    | some f =>
      let (b, c1) := f gid ctrl op.inputs op.outputs c
      if b then addOperations gid ctrl rest c1 else (false, c1)

/-- Helper of Model::addOutputs: collect the output operands' handles,
failing if any is still unset. -/
def collectOutputHandles (env : List OperandInfo) :
    List Nat → Option (List hexagon_nn_input)
  | [] => some []
  | i :: rest =>
    if (opAt env i).hexagon_input = ({} : hexagon_nn_input) then none
    else match collectOutputHandles env rest with
      | none => none
      | some hs => some ((opAt env i).hexagon_input :: hs)

/-- Model::addOutputs: one terminal OP_OUTPUT node consuming every output
operand's handle. -/
def addOutputs (gid : Nat) (ctrl : Ctrl) (outputsIdx : List Nat) (c : Core) :
    Bool × Core :=
  match collectOutputHandles c.operands outputsIdx with
  | none => (false, c)
  | some ins => addBasicOperation gid ctrl .OP_OUTPUT .NN_PAD_NA ins [] c

/-- Model::resetModel: clear the compiled flag, clear every operand's input
and output handles (the cached quantization min/max handles are not
cleared), tear down the session when one is live, and initialize a fresh
session with debug verbosity 99. -/
def Model.resetModel (s : MState) : MState :=
  let env := s.core.operands.map (fun o =>
    { o with hexagon_input := {}, hexagon_output := {} })
  let c1 := { s.core with operands := env }
  let c2 := if s.graphId ≠ 0 then addTrace (.teardown s.graphId) c1 else c1
  let newId := s.ctrl.initResult c2.initCount
  let c3 := addTrace (.setDebugLevel newId 99)
    (addTrace (.initGraph newId) { c2 with initCount := c2.initCount + 1 })
  { s with core := c3, graphId := newId, mCompiled := false }

/-- Model::getLog (snpprint) as a ghost trace event. -/
def Model.getLog (s : MState) : MState :=
  { s with core := addTrace (.snpprint s.graphId) s.core }

/-- Model::getDebugLog (getlog) as a ghost trace event. -/
def Model.getDebugLog (s : MState) : MState :=
  { s with core := addTrace (.getlog s.graphId) s.core }

/-- The construction phase of Model::compile: addInputs, addOperations,
addOutputs, short-circuiting on the first failure and returning the state
at that point. -/
def constructionRun (s : MState) : Bool × MState :=
  let (b1, c1) := addInputs s.graphId s.ctrl s.inputsIdx s.core
  if ¬ b1 then (false, { s with core := c1 })
  else
    let (b2, c2) := addOperations s.graphId s.ctrl s.operations c1
    if ¬ b2 then (false, { s with core := c2 })
    else
      let (b3, c3) := addOutputs s.graphId s.ctrl s.outputsIdx c2
      (b3, { s with core := c3 })

/-- The tail of Model::compile after successful construction: log dumps,
the accelerator prepare call (whose status decides the result), log dumps
again; a prepare failure does not reset anything. -/
def preparePhase (s : MState) : Bool × MState :=
  let s5 := Model.getDebugLog (Model.getLog s)
  let err := s5.ctrl.prepareErr s5.core.prepCount
  let c6 := addTrace (.prepareGraph s5.graphId err)
    { s5.core with prepCount := s5.core.prepCount + 1 }
  let s6 := { s5 with core := c6 }
  let s7 := Model.getDebugLog (Model.getLog s6)
  (err = 0, s7)

/-- Model::compile: validation (short-circuit), then the three
construction steps (resetModel exactly when one of them fails), then the
accelerator prepare call. -/
def Model.compile (s : MState) : Bool × MState :=
  let (vOps, s1) := Model.verifyOperations s
  if ¬ vOps then (false, s1)
  else if ¬ Model.verifyOperands s1 then (false, s1)
  else
    let (cOk, s4) := constructionRun s1
    if ¬ cOk then (false, Model.resetModel s4)
    else preparePhase s4

/-- One input/output argument of an inference request. -/
structure RequestArgument where
  poolIndex : Nat := 0
  offset : Nat := 0
  dimensions : List Nat := []
deriving DecidableEq, Repr

/-- An inference request: arguments plus the request memory pools (each
pool viewed as its 32-bit word contents). -/
structure Request where
  inputs : List RequestArgument := []
  outputs : List RequestArgument := []
  pools : List (List Int) := []
deriving DecidableEq, Repr

/-- static getSize(OperandInfo): element count times element size. -/
def operandByteSize (o : OperandInfo) : Nat :=
  o.dimensions.foldr (· * ·) (getSize o.type)

/-- static updateOperand: rebind the operand's buffer into the request pool
at the given offset, override the dimensions when the request supplies
them, and recompute the byte length. -/
def updateOperand (ra : RequestArgument) (pools : List (List Int))
    (o : OperandInfo) : OperandInfo :=
  let o1 := if ra.dimensions.length > 0 then { o with dimensions := ra.dimensions } else o
  let o2 := { o1 with buffer := (pools.getD ra.poolIndex []).drop ra.offset }
  { o2 with length := operandByteSize o2 }

/-- The input/output rebinding loops of Model::execute. -/
def rebindOperands (pools : List (List Int)) :
    List RequestArgument → List Nat → List OperandInfo → List OperandInfo
  | [], _, env => env
  | _, [], env => env
  | ra :: ras, i :: is, env =>
    rebindOperands pools ras is (setOp env i (updateOperand ra pools (opAt env i)))
  -- the C++ loop indexes mInputs[i] for each request argument i

/-- Model::execute: map the request pools, rebind the declared input and
output operands to the request buffers, invoke execute_new, and succeed
exactly when the accelerator returned zero.  No compilation is attempted. -/
def Model.execute (r : Request) (s : MState) : Bool × MState :=
  let env1 := rebindOperands r.pools r.inputs s.inputsIdx s.core.operands
  let env2 := rebindOperands r.pools r.outputs s.outputsIdx env1
  let err := s.ctrl.executeErr s.core.execCount
  let c1 := addTrace (.executeNew s.graphId r.inputs.length r.outputs.length err)
    { s.core with operands := env2, execCount := s.core.execCount + 1 }
  let s1 := Model.getDebugLog { s with core := c1 }
  (err = 0, s1)

/-- The ErrorStatus values surfaced through the execution callback. -/
inductive ErrorStatus
  | NONE
  | GENERAL_FAILURE
  | INVALID_ARGUMENT
deriving DecidableEq, Repr

/-- PreparedModel::asyncExecute: run Model::execute and notify the callback
with NONE or GENERAL_FAILURE. -/
def asyncExecute (r : Request) (s : MState) : ErrorStatus × MState :=
  let (ok, s1) := Model.execute r s
  (if ok then .NONE else .GENERAL_FAILURE, s1)

/-- The already-parsed generic model a hexagon::Model is constructed from
(operand buffers resolved, as getOperandsInfo does). -/
structure NNModelDesc where
  operands : List OperandInfo := []
  operations : List Operation := []
  inputIndexes : List Nat := []
  outputIndexes : List Nat := []

/-- Model::Model(const NeuralnetworksModel&): zero node counter, compiled
flag false, fresh accelerator session with debug verbosity 99. -/
def initModel (d : NNModelDesc) (ctrl : Ctrl) : MState :=
  let gid := ctrl.initResult 0
  { core :=
      { nodeCount := 0
        operands := d.operands
        trace := [.setDebugLevel gid 99, .initGraph gid]
        initCount := 1
        prepCount := 0
        execCount := 0 }
    graphId := gid
    mCompiled := false
    ctrl := ctrl
    operations := d.operations
    inputsIdx := d.inputIndexes
    outputsIdx := d.outputIndexes }

/-- Model::operator=(Model&&): the destination takes over every field; the
source keeps its node counter but loses its vectors, its graph id becomes
the sentinel and its compiled flag false. -/
def Model.moveAssign (src : MState) : MState × MState :=
  (src,
   { src with
      core := { src.core with operands := [] }
      graphId := 0
      mCompiled := false
      operations := []
      inputsIdx := []
      outputsIdx := [] })

/-- Model::~Model: tear the session down exactly when the graph id differs
from the sentinel. -/
def destructorCalls (s : MState) : List CtrlCall :=
  if s.graphId ≠ 0 then [.teardown s.graphId] else []

/-- States of a hexagon::Model reachable through its public entry points:
construction, supportedOperations, compile, execute, reset, and the two
sides of a move assignment. -/
inductive Reachable : MState → Prop
  | construct (d : NNModelDesc) (ctrl : Ctrl) : Reachable (initModel d ctrl)
  | supported {s : MState} : Reachable s → Reachable (Model.supportedOperations s).2
  | compile {s : MState} : Reachable s → Reachable (Model.compile s).2
  | run {s : MState} (r : Request) : Reachable s → Reachable (Model.execute r s).2
  | reset {s : MState} : Reachable s → Reachable (Model.resetModel s)
  | moveTo {s : MState} : Reachable s → Reachable (Model.moveAssign s).1
  | moveFrom {s : MState} : Reachable s → Reachable (Model.moveAssign s).2

end Hvx

namespace Hvx

/-! ### Concrete instances used by counterexamples and witnesses -/

/-- An accelerator oracle that accepts every call. -/
def ctrlOK : Ctrl :=
  { initResult := fun n => n + 1
    appendNodeOk := fun _ => true
    appendConstOk := fun _ => true
    prepareErr := fun _ => 0
    executeErr := fun _ => 0 }

/-- An accelerator oracle that rejects every append_node call. -/
def ctrlRejNode : Ctrl :=
  { ctrlOK with appendNodeOk := fun _ => false }

/-- A quantized operand with zero point 1 and scale 1. -/
def envC5 : List OperandInfo :=
  [{ type := .TENSOR_QUANT8_ASYMM, dimensions := [1], scale := 1, zeroPoint := 1 }]

/-- Core over the single quantized operand. -/
def coreC5 : Core := { operands := envC5 }

/-- A single float operand whose accelerator handle is already assigned. -/
def envC6 : List OperandInfo :=
  [{ type := .TENSOR_FLOAT32, dimensions := [1],
     hexagon_input := { src_id := 7, output_idx := 0 } }]

/-- Core over the already-registered operand. -/
def coreC6 : Core := { operands := envC6 }

/-- An accelerator oracle on which every execute_new call fails. -/
def ctrlExecFail : Ctrl := { ctrlOK with executeErr := fun _ => 1 }

/-- A model description holding one FLOOR operation — an operation kind the
check table does not support — over two float operands. -/
def descC3 : NNModelDesc :=
  { operands :=
      [{ type := .TENSOR_FLOAT32, dimensions := [1, 1, 1, 1] },
       { type := .TENSOR_FLOAT32, dimensions := [1, 1, 1, 1] }]
    operations := [{ type := .FLOOR, inputs := [0], outputs := [1] }]
    inputIndexes := [0]
    outputIndexes := [1] }

/-- The freshly constructed model over descC3 (session id 1). -/
def stC3 : MState := initModel descC3 ctrlOK

/-- An int32 scalar operand holding one value. -/
def scalarOperand (v : Int) : OperandInfo :=
  { type := .INT32, lifetime := .CONSTANT_COPY, buffer := [v], length := 4 }

/-- A model with a single float32 AVERAGE_POOL_2D operation in the 7-input
implicit-padding form (VALID padding, stride 1, 1x1 filter, no fused
activation) over a [1,1,1,1] input. -/
def descC1 : NNModelDesc :=
  { operands :=
      [{ type := .TENSOR_FLOAT32, dimensions := [1, 1, 1, 1],
         lifetime := .MODEL_INPUT },
       scalarOperand 2, scalarOperand 1, scalarOperand 1, scalarOperand 1,
       scalarOperand 1, scalarOperand 0,
       { type := .TENSOR_FLOAT32, dimensions := [1, 1, 1, 1],
         lifetime := .MODEL_OUTPUT }]
    operations :=
      [{ type := .AVERAGE_POOL_2D, inputs := [0, 1, 2, 3, 4, 5, 6], outputs := [7] }]
    inputIndexes := [0]
    outputIndexes := [7] }

/-- The freshly constructed model over descC1. -/
def stC1 : MState := initModel descC1 ctrlOK

/-- A model with a single TANH operation whose first input is an 8-bit
quantized tensor. -/
def descC1b : NNModelDesc :=
  { operands :=
      [{ type := .TENSOR_QUANT8_ASYMM, dimensions := [1], scale := 1,
         zeroPoint := 0, lifetime := .MODEL_INPUT },
       { type := .TENSOR_QUANT8_ASYMM, dimensions := [1], scale := 1,
         zeroPoint := 0, lifetime := .MODEL_OUTPUT }]
    operations := [{ type := .TANH, inputs := [0], outputs := [1] }]
    inputIndexes := [0]
    outputIndexes := [1] }

/-- The freshly constructed model over descC1b. -/
def stC1b : MState := initModel descC1b ctrlOK

/-- A chained two-operation float model: an ADD whose output feeds a RELU. -/
def descC8 : NNModelDesc :=
  { operands :=
      [{ type := .TENSOR_FLOAT32, dimensions := [1], lifetime := .MODEL_INPUT },
       { type := .TENSOR_FLOAT32, dimensions := [1], lifetime := .MODEL_INPUT },
       scalarOperand 0,
       { type := .TENSOR_FLOAT32, dimensions := [1] },
       { type := .TENSOR_FLOAT32, dimensions := [1], lifetime := .MODEL_OUTPUT }]
    operations :=
      [{ type := .ADD, inputs := [0, 1, 2], outputs := [3] },
       { type := .RELU, inputs := [3], outputs := [4] }]
    inputIndexes := [0, 1]
    outputIndexes := [4] }

/-- The freshly constructed model over descC8. -/
def stC8 : MState := initModel descC8 ctrlOK

/-- Two operands: operand 0 with an assigned input handle, operand 1 with
an assigned output descriptor. -/
def envC6W : List OperandInfo :=
  [{ type := .TENSOR_FLOAT32, dimensions := [1],
     hexagon_input := { src_id := 7, output_idx := 0 } },
   { type := .TENSOR_FLOAT32, dimensions := [1],
     hexagon_output := make_hexagon_nn_output [1] 4 }]

end Hvx

namespace Hvx

/-! ### Helper lemmas -/

theorem opAt_setOp_self {env : List OperandInfo} {k : Nat}
    (h : k < env.length) (o : OperandInfo) : opAt (setOp env k o) k = o := by
  simp [opAt, setOp, List.getD_eq_getElem?_getD, List.getElem?_set_self h]

theorem opAt_setOp_ne {env : List OperandInfo} {i k : Nat}
    (h : i ≠ k) (o : OperandInfo) : opAt (setOp env i o) k = opAt env k := by
  simp [opAt, setOp, List.getD_eq_getElem?_getD, List.getElem?_set_ne h]

theorem setOp_length (env : List OperandInfo) (k : Nat) (o : OperandInfo) :
    (setOp env k o).length = env.length := by
  simp [setOp]

/-! ### Claim C4 -/

/-- Claim C4 (code bug): the fused-activation lowering is swapped in the
code.  `getFloatActivationFunction` sends RELU6 to the clamp opcode (whose
extra constants are -1.0 and 1.0) and RELU1 to the bounded-relu opcode
(whose extra constant is 6.0); the quantized variant matches; NONE and RELU
map as the claim states.  The repository's own standalone RELU1/RELU6
lowerings (f32_relu1, f32_relu6) use the opposite, correct pairing, so the
fused mapping contradicts the code's own conventions.  This theorem
evaluates the code at the failing selectors. -/
theorem claim_C4_activation_swapped :
    getFloatActivationFunction .NONE = .OP_Nop ∧
    getFloatActivationFunction .RELU = .OP_Relu_f ∧
    getQuantizedActivationFunction .NONE = .OP_Nop ∧
    getQuantizedActivationFunction .RELU = .OP_QuantizedRelu_8 ∧
    -- the swap: RELU6 gets the clamp node, RELU1 the bounded-relu node
    getFloatActivationFunction .RELU6 = .OP_Clamp_f ∧
    getFloatActivationFunction .RELU1 = .OP_ReluX_f ∧
    getFloatActivationFunction .RELU6 ≠ .OP_ReluX_f ∧
    getFloatActivationFunction .RELU1 ≠ .OP_Clamp_f ∧
    getQuantizedActivationFunction .RELU6 = .OP_QuantizedClamp_8 ∧
    getQuantizedActivationFunction .RELU1 = .OP_QuantizedReluX_8 ∧
    -- so the RELU6 selector's activation node receives the clamp constants
    -- -1.0 and 1.0, and the RELU1 selector's node the bound constant 6.0
    (setupActivationArgs 1 ctrlOK (getFloatActivationFunction .RELU6) {}).2.trace =
      [.appendConstNode 1 2 1 1 1 1 (.floats [1]) 4,
       .appendConstNode 1 1 1 1 1 1 (.floats [-1]) 4] ∧
    (setupActivationArgs 1 ctrlOK (getFloatActivationFunction .RELU1) {}).2.trace =
      [.appendConstNode 1 1 1 1 1 1 (.floats [6]) 4] ∧
    -- while the standalone relu6/relu1 lowerings create 6.0, and -1.0/1.0
    (f32_relu6 1 ctrlOK [0] [1] coreC5).2.trace.reverse.take 3 =
      [.appendConstNode 1 1 1 1 1 1 (.rawBuffer 0) 0,
       .appendConstNode 1 2 1 1 1 1 (.floats [6]) 4,
       .appendNode 1 3 .OP_ReluX_f .NN_PAD_NA
         [{ src_id := 1, output_idx := 0 }, { src_id := 2, output_idx := 0 }]
         (getHexagonOutputs envC5 [1])] := by
  decide

/-! ### Claim C10 -/

/-- Claim C10: moving a Model transfers session ownership: the moved-from
object's graph id becomes the sentinel and its compiled flag false; the
destructor issues the accelerator teardown exactly when the graph id
differs from the sentinel; hence destroying both objects of a move tears
the transferred session down at most once. -/
theorem claim_C10_move_teardown_once (s t : MState) :
    (Model.moveAssign s).2.graphId = 0 ∧
    (Model.moveAssign s).2.mCompiled = false ∧
    (Model.moveAssign s).1.graphId = s.graphId ∧
    (Model.moveAssign s).1.mCompiled = s.mCompiled ∧
    destructorCalls (Model.moveAssign s).2 = [] ∧
    destructorCalls t = (if t.graphId ≠ 0 then [.teardown t.graphId] else []) ∧
    (destructorCalls (Model.moveAssign s).2 ++
      destructorCalls (Model.moveAssign s).1).count (.teardown s.graphId) ≤ 1 := by
  refine ⟨rfl, rfl, rfl, rfl, ?_, rfl, ?_⟩
  · simp [destructorCalls, Model.moveAssign]
  · simp only [destructorCalls, Model.moveAssign]
    by_cases h : s.graphId ≠ 0 <;> simp [h, List.count_singleton]

end Hvx

namespace Hvx

/-! ### Claim C7 -/

/-- Claim C7: node ids come from a strictly increasing counter that starts
at zero (so the first allocated id is 1 and zero is never a valid id);
every accepted node-creation call consumes exactly one id; when the
accelerator rejects the node, the creating call reports id zero, and the
construction step (addBasicOperation) fails on that zero. -/
theorem claim_C7_node_ids (gid : Nat) (ctrl : Ctrl) (op : op_type)
    (pad : hexagon_nn_padding_type) (ins : List hexagon_nn_input)
    (outs : List hexagon_nn_output) (outsIdx : List Nat) (c : Core)
    (d : NNModelDesc)
    (hlt : c.nodeCount + 1 < 2 ^ 32)
    (hins : verifyOperationInputs ins = true)
    (houts : verifyOperationOutputs outs = true) :
    (initModel d ctrl).core.nodeCount = 0 ∧
    (getNextNode c).1 = c.nodeCount + 1 ∧
    (getNextNode c).2.nodeCount = c.nodeCount + 1 ∧
    c.nodeCount < (getNextNode c).1 ∧
    (getNextNode c).1 ≠ 0 ∧
    (addOperationInternal gid ctrl op pad ins outs c).2.nodeCount = c.nodeCount + 1 ∧
    (addOperationInternal gid ctrl op pad ins outs c).1 =
      (if ctrl.appendNodeOk (c.nodeCount + 1) then c.nodeCount + 1 else 0) ∧
    (ctrl.appendNodeOk (c.nodeCount + 1) = false →
      (addBasicOperation gid ctrl op pad ins outsIdx c).1 = false) := by
  have hmod : (c.nodeCount + 1) % 2 ^ 32 = c.nodeCount + 1 := Nat.mod_eq_of_lt hlt
  have hg : getNextNode c = (c.nodeCount + 1, { c with nodeCount := c.nodeCount + 1 }) := by
    simp only [getNextNode, hmod]
  refine ⟨rfl, ?_, ?_, ?_, ?_, ?_, ?_, ?_⟩
  · rw [hg]
  · rw [hg]
  · rw [hg]; exact Nat.lt_succ_self _
  · rw [hg]; exact Nat.succ_ne_zero _
  · simp [addOperationInternal, hg, hins, houts, addTrace]
  · simp [addOperationInternal, hg, hins, houts, addTrace]
  · intro hrej
    simp only [addBasicOperation, addOperationInternal, hg, hins, addTrace]
    by_cases hv : verifyOperationOutputs (getHexagonOutputs c.operands outsIdx)
    · simp [hv, hrej]
    · simp [hv]

/-- Witness for claim C7 at a concrete rejecting controller. -/
theorem claim_C7_witness :
    (({ operands := envC6 } : Core).nodeCount + 1 < 2 ^ 32) ∧
    verifyOperationInputs [{ src_id := 5, output_idx := 0 }] = true ∧
    verifyOperationOutputs [make_hexagon_nn_output [1] 4] = true ∧
    ((initModel {} ctrlRejNode).core.nodeCount = 0 ∧
     (getNextNode { operands := envC6 }).1 = ({ operands := envC6 } : Core).nodeCount + 1 ∧
     (getNextNode { operands := envC6 }).2.nodeCount = ({ operands := envC6 } : Core).nodeCount + 1 ∧
     ({ operands := envC6 } : Core).nodeCount < (getNextNode { operands := envC6 }).1 ∧
     (getNextNode { operands := envC6 }).1 ≠ 0 ∧
     (addOperationInternal 1 ctrlRejNode .OP_Relu_f .NN_PAD_NA
        [{ src_id := 5, output_idx := 0 }] [make_hexagon_nn_output [1] 4]
        { operands := envC6 }).2.nodeCount = ({ operands := envC6 } : Core).nodeCount + 1 ∧
     (addOperationInternal 1 ctrlRejNode .OP_Relu_f .NN_PAD_NA
        [{ src_id := 5, output_idx := 0 }] [make_hexagon_nn_output [1] 4]
        { operands := envC6 }).1 =
       (if ctrlRejNode.appendNodeOk (({ operands := envC6 } : Core).nodeCount + 1) then
          ({ operands := envC6 } : Core).nodeCount + 1 else 0) ∧
     (ctrlRejNode.appendNodeOk (({ operands := envC6 } : Core).nodeCount + 1) = false →
       (addBasicOperation 1 ctrlRejNode .OP_Relu_f .NN_PAD_NA
          [{ src_id := 5, output_idx := 0 }] [0] { operands := envC6 }).1 = false)) :=
  ⟨by decide, by decide, by decide,
   claim_C7_node_ids 1 ctrlRejNode .OP_Relu_f .NN_PAD_NA
     [{ src_id := 5, output_idx := 0 }] [make_hexagon_nn_output [1] 4] [0]
     { operands := envC6 } {} (by decide) (by decide) (by decide)⟩

/-! ### Claim C6 -/

/-- Claim C6 (corrected): the handle-assignment discipline holds for the
registration path and for setShape: registerHexagonInputs fails as soon as
it meets an operand whose handle is already assigned, and the existing
assignment of that operand is not mutated; setShape fails without mutation
once the operand's output descriptor is assigned.  (The claim's universal
form is refuted by addInputs, which rebinds input handles unconditionally;
see the counterexample.) -/
theorem claim_C6_single_assignment (env : List OperandInfo) (node idx0 : Nat)
    (ops : List Nat) (k j : Nat) (sh : Shape)
    (hk : k ∈ ops)
    (hset : (opAt env k).hexagon_input ≠ ({} : hexagon_nn_input))
    (hout : (opAt env j).hexagon_output ≠ ({} : hexagon_nn_output)) :
    (registerHexagonInputsAux node ops idx0 env).1 = false ∧
    (opAt (registerHexagonInputsAux node ops idx0 env).2 k).hexagon_input
      = (opAt env k).hexagon_input ∧
    Model.setShape env j sh = (false, env) := by
  have main : ∀ (ops : List Nat) (idx0 : Nat) (env : List OperandInfo),
      k ∈ ops → (opAt env k).hexagon_input ≠ ({} : hexagon_nn_input) →
      (registerHexagonInputsAux node ops idx0 env).1 = false ∧
      (opAt (registerHexagonInputsAux node ops idx0 env).2 k).hexagon_input
        = (opAt env k).hexagon_input := by
    intro ops
    induction ops with
    | nil => intro idx0 env hmem _; exact absurd hmem (List.not_mem_nil k)
    | cons i rest ih =>
      intro idx0 env hmem hne
      by_cases hi : (opAt env i).hexagon_input ≠ ({} : hexagon_nn_input)
      · simp [registerHexagonInputsAux, hi]
      · have hik : i ≠ k := by
          intro h; subst h; exact hne (by simpa using hi)
        have hmem2 : k ∈ rest := by
          rcases List.mem_cons.mp hmem with h | h
          · exact absurd h.symm hik
          · exact h
        by_cases hq : (opAt env i).type = .TENSOR_QUANT8_ASYMM
        · have := ih (idx0 + 3)
            (setOp env i { opAt env i with
              hexagon_input := { src_id := node, output_idx := idx0 }
              hexagon_input_min := { src_id := node, output_idx := idx0 + 1 }
              hexagon_input_max := { src_id := node, output_idx := idx0 + 2 } })
            hmem2 (by rw [opAt_setOp_ne hik]; exact hne)
          simpa [registerHexagonInputsAux, hi, hq, opAt_setOp_ne hik] using this
        · have := ih (idx0 + 1)
            (setOp env i { opAt env i with
              hexagon_input := { src_id := node, output_idx := idx0 } })
            hmem2 (by rw [opAt_setOp_ne hik]; exact hne)
          simpa [registerHexagonInputsAux, hi, hq, opAt_setOp_ne hik] using this
  refine ⟨(main ops idx0 env hk hset).1, (main ops idx0 env hk hset).2, ?_⟩
  simp [Model.setShape, hout]

/-- Witness for claim C6 at a two-operand table: operand 0's handle is
already assigned (so registration fails without mutating it) and operand
1's output descriptor is assigned (so setShape fails without mutation). -/
theorem claim_C6_witness :
    (0 : Nat) ∈ [0, 1] ∧
    (opAt envC6W 0).hexagon_input ≠ ({} : hexagon_nn_input) ∧
    (opAt envC6W 1).hexagon_output ≠ ({} : hexagon_nn_output) ∧
    ((registerHexagonInputsAux 9 [0, 1] 0 envC6W).1 = false ∧
     (opAt (registerHexagonInputsAux 9 [0, 1] 0 envC6W).2 0).hexagon_input
       = (opAt envC6W 0).hexagon_input ∧
     Model.setShape envC6W 1
       { type := .TENSOR_FLOAT32, dimensions := [2], scale := 0, offset := 0 }
       = (false, envC6W)) :=
  ⟨by decide, by decide, by decide,
   claim_C6_single_assignment envC6W 9 0 [0, 1] 0 1
     { type := .TENSOR_FLOAT32, dimensions := [2], scale := 0, offset := 0 }
     (by decide) (by decide) (by decide)⟩

/-- Counterexample for claim C6 as stated: Model::addInputs rebinds an
input operand's accelerator handle unconditionally — on an operand whose
handle is already (7,0), addInputs succeeds and silently replaces the
handle with the fresh input node's (1,0); the second assignment neither
fails nor preserves the first. -/
theorem claim_C6_cex :
    (opAt coreC6.operands 0).hexagon_input = { src_id := 7, output_idx := 0 } ∧
    (addInputs 3 ctrlOK [0] coreC6).1 = true ∧
    (opAt (addInputs 3 ctrlOK [0] coreC6).2.operands 0).hexagon_input
      = { src_id := 1, output_idx := 0 } := by
  decide

end Hvx

namespace Hvx

/-! ### Claim C5 -/

/-- Claim C5 (corrected): for a quantized operand with zero point Z and
scale S, the first getQuantizationMin call creates the constant (0-Z)*S and
caches its handle (the second call returns the cached handle with no
further accelerator call), getQuantizationMax creates (255-Z)*S likewise;
createQuantizationValue at quantized value V creates
((V - Z) mod 2^32) * S — the subtraction runs in unsigned 32-bit
arithmetic — which equals the claimed (V - Z) * S exactly when Z ≤ V. -/
theorem claim_C5_quantization (gid : Nat) (ctrl : Ctrl) (c : Core) (k v : Nat)
    (hk : k < c.operands.length)
    (hlt : c.nodeCount + 1 < 2 ^ 32)
    (hmin : (opAt c.operands k).hexagon_input_min = ({} : hexagon_nn_input))
    (hmax : (opAt c.operands k).hexagon_input_max = ({} : hexagon_nn_input))
    (hok : ctrl.appendConstOk (c.nodeCount + 1) = true)
    (hzv : (opAt c.operands k).zeroPoint ≤ (v : Int))
    (hvlt : (v : Int) - (opAt c.operands k).zeroPoint < (2 ^ 32 : Int)) :
    (getQuantizationMin gid ctrl k c).2.trace =
      .appendConstNode gid (c.nodeCount + 1) 1 1 1 1
        (.floats [((0 - (opAt c.operands k).zeroPoint : Int) : Rat) *
          (opAt c.operands k).scale]) 4 :: c.trace ∧
    (getQuantizationMin gid ctrl k c).1 =
      { src_id := c.nodeCount + 1, output_idx := 0 } ∧
    (opAt (getQuantizationMin gid ctrl k c).2.operands k).hexagon_input_min =
      (getQuantizationMin gid ctrl k c).1 ∧
    getQuantizationMin gid ctrl k (getQuantizationMin gid ctrl k c).2 =
      ((getQuantizationMin gid ctrl k c).1, (getQuantizationMin gid ctrl k c).2) ∧
    (getQuantizationMax gid ctrl k c).2.trace =
      .appendConstNode gid (c.nodeCount + 1) 1 1 1 1
        (.floats [(((255 : Int) - (opAt c.operands k).zeroPoint : Int) : Rat) *
          (opAt c.operands k).scale]) 4 :: c.trace ∧
    (createQuantizationValue gid ctrl k v c).2.trace =
      .appendConstNode gid (c.nodeCount + 1) 1 1 1 1
        (.floats [((((v : Int) - (opAt c.operands k).zeroPoint) % (2 ^ 32 : Int) : Int) : Rat) *
          (opAt c.operands k).scale]) 4 :: c.trace ∧
    ((((v : Int) - (opAt c.operands k).zeroPoint) % (2 ^ 32 : Int) : Int) : Rat) *
        (opAt c.operands k).scale =
      (((v : Int) - (opAt c.operands k).zeroPoint : Int) : Rat) *
        (opAt c.operands k).scale := by
  have hmodN : (c.nodeCount + 1) % 2 ^ 32 = c.nodeCount + 1 := Nat.mod_eq_of_lt hlt
  have hemod : ((v : Int) - (opAt c.operands k).zeroPoint) % (2 ^ 32 : Int) =
      (v : Int) - (opAt c.operands k).zeroPoint :=
    Int.emod_eq_of_lt (by omega) hvlt
  have hne : ({ src_id := c.nodeCount + 1, output_idx := 0 } : hexagon_nn_input) ≠ {} := by
    simp [hexagon_nn_input.mk.injEq]
  have hfirst : getQuantizationMin gid ctrl k c =
      ({ src_id := c.nodeCount + 1, output_idx := 0 },
        { c with
          nodeCount := c.nodeCount + 1
          operands := setOp c.operands k
            { opAt c.operands k with
              hexagon_input_min := { src_id := c.nodeCount + 1, output_idx := 0 } }
          trace := .appendConstNode gid (c.nodeCount + 1) 1 1 1 1
            (.floats [((0 - (opAt c.operands k).zeroPoint : Int) : Rat) *
              (opAt c.operands k).scale]) 4 :: c.trace }) := by
    simp only [getQuantizationMin, createValues, createTensorInternal, getNextNode,
      addTrace, hmin, hmodN, hok, if_pos rfl, if_true, List.length_cons, List.length_nil]
  refine ⟨?_, ?_, ?_, ?_, ?_, ?_, ?_⟩
  · rw [hfirst]
  · rw [hfirst]
  · rw [hfirst]
    simp [opAt_setOp_self hk]
  · rw [hfirst]
    simp only [getQuantizationMin]
    rw [opAt_setOp_self hk]
    simp [hne]
  · simp only [getQuantizationMax, createValues, createTensorInternal, getNextNode,
      addTrace, hmax, hmodN, hok, if_pos rfl, if_true, List.length_cons, List.length_nil]
  · simp only [createQuantizationValue, createValues, createTensorInternal, getNextNode,
      addTrace, hmodN, hok, if_pos rfl, if_true, List.length_cons, List.length_nil]
  · rw [hemod]

end Hvx

namespace Hvx

/-- Witness for claim C5 on the concrete quantized operand (Z = 1, S = 1)
at quantized value v = 5. -/
theorem claim_C5_witness :
    (0 : Nat) < coreC5.operands.length ∧
    coreC5.nodeCount + 1 < 2 ^ 32 ∧
    (opAt coreC5.operands 0).hexagon_input_min = ({} : hexagon_nn_input) ∧
    (opAt coreC5.operands 0).hexagon_input_max = ({} : hexagon_nn_input) ∧
    ctrlOK.appendConstOk (coreC5.nodeCount + 1) = true ∧
    (opAt coreC5.operands 0).zeroPoint ≤ ((5 : Nat) : Int) ∧
    ((5 : Nat) : Int) - (opAt coreC5.operands 0).zeroPoint < (2 ^ 32 : Int) ∧
    (getQuantizationMin 2 ctrlOK 0 coreC5).2.trace =
      .appendConstNode 2 (coreC5.nodeCount + 1) 1 1 1 1
        (.floats [((0 - (opAt coreC5.operands 0).zeroPoint : Int) : Rat) *
          (opAt coreC5.operands 0).scale]) 4 :: coreC5.trace ∧
    ((((5 : Nat) : Int) - (opAt coreC5.operands 0).zeroPoint) % (2 ^ 32 : Int) : Int) *
        (opAt coreC5.operands 0).scale =
      ((((5 : Nat) : Int) - (opAt coreC5.operands 0).zeroPoint : Int) : Rat) *
        (opAt coreC5.operands 0).scale :=
  ⟨by decide, by decide, by decide, by decide, by decide, by decide, by decide,
   (claim_C5_quantization 2 ctrlOK coreC5 0 5 (by decide) (by decide) (by decide)
      (by decide) (by decide) (by decide) (by decide)).1,
   (claim_C5_quantization 2 ctrlOK coreC5 0 5 (by decide) (by decide) (by decide)
      (by decide) (by decide) (by decide) (by decide)).2.2.2.2.2.2⟩

/-- Counterexample for claim C5 as stated: createQuantizationValue at
quantized value V = 0 on an operand with zero point Z = 1 and scale S = 1
creates the constant 2^32 - 1 = 4294967295 (the unsigned 32-bit wrap of
V - Z), not the claimed (V - Z) * S = -1. -/
theorem claim_C5_cex :
    (createQuantizationValue 3 ctrlOK 0 0 coreC5).2.trace =
      [.appendConstNode 3 1 1 1 1 1 (.floats [(4294967295 : Rat)]) 4] ∧
    (4294967295 : Rat) ≠
      (((0 : Int) - (opAt coreC5.operands 0).zeroPoint : Int) : Rat) *
        (opAt coreC5.operands 0).scale := by
  have hz : (opAt coreC5.operands 0).zeroPoint = 1 := by decide
  have hs : (opAt coreC5.operands 0).scale = 1 := by decide
  have hm : ((((0 : Nat) : Int) - (opAt coreC5.operands 0).zeroPoint) % (2 ^ 32 : Int)) =
      (4294967295 : Int) := by decide
  constructor
  · simp only [createQuantizationValue, createValues, createTensorInternal, getNextNode,
      addTrace, hm, hs]
    norm_num [coreC5, ctrlOK]
  · rw [hz, hs]
    norm_num

end Hvx

namespace Hvx

/-! ### Claim C9 -/

theorem supported_mCompiled (s : MState) :
    (Model.supportedOperations s).2.mCompiled = s.mCompiled := by
  rcases hr : runChecks s.operations s.core.operands with ⟨bs, env⟩
  simp [Model.supportedOperations, hr]

theorem verifyOperations_mCompiled (s : MState) :
    (Model.verifyOperations s).2.mCompiled = s.mCompiled := by
  rcases hr : Model.supportedOperations s with ⟨bs, s1⟩
  have h2 := supported_mCompiled s
  rw [hr] at h2
  simpa [Model.verifyOperations, hr] using h2

theorem execute_mCompiled (r : Request) (s : MState) :
    (Model.execute r s).2.mCompiled = s.mCompiled := rfl

theorem resetModel_mCompiled (s : MState) :
    (Model.resetModel s).mCompiled = false := rfl

theorem constructionRun_mCompiled (s : MState) :
    (constructionRun s).2.mCompiled = s.mCompiled := by
  simp only [constructionRun]
  rcases ha : addInputs s.graphId s.ctrl s.inputsIdx s.core with ⟨b1, c1⟩
  by_cases hb1 : b1
  · rcases hb : addOperations s.graphId s.ctrl s.operations c1 with ⟨b2, c2⟩
    by_cases hb2 : b2
    · rcases hc : addOutputs s.graphId s.ctrl s.outputsIdx c2 with ⟨b3, c3⟩
      simp [hb1, hb2]
    · simp [hb1, hb2]
  · simp [hb1]

theorem preparePhase_mCompiled (s : MState) :
    (preparePhase s).2.mCompiled = s.mCompiled := rfl

theorem compile_mCompiled (s : MState) :
    (Model.compile s).2.mCompiled = false ∨
    (Model.compile s).2.mCompiled = s.mCompiled := by
  simp only [Model.compile]
  rcases hv : Model.verifyOperations s with ⟨vOps, s1⟩
  have hs1 : s1.mCompiled = s.mCompiled := by
    have := verifyOperations_mCompiled s
    rw [hv] at this
    exact this
  by_cases h1 : vOps
  · by_cases h2 : Model.verifyOperands s1
    · rcases hc : constructionRun s1 with ⟨cOk, s4⟩
      have hs4 : s4.mCompiled = s1.mCompiled := by
        have := constructionRun_mCompiled s1
        rw [hc] at this
        exact this
      by_cases hb : cOk
      · right
        simp only [h1, h2, hb, not_true, if_false, ite_false, ite_true, if_true]
        simp [preparePhase_mCompiled, hs4, hs1]
      · left
        simp [h1, h2, hb, Model.resetModel]
    · right
      simp [h1, h2, hs1]
  · right
    simp [h1, hs1]

/-- Claim C9: the compiled flag is false in every reachable state of a
Model: it starts false, resetModel resets it, the moved-from side of a move
clears it, and no entry point — compile() included — ever sets it true. -/
theorem claim_C9_never_compiled (s : MState) (h : Reachable s) :
    s.mCompiled = false := by
  induction h with
  | construct d ctrl => rfl
  | supported _ ih => rw [supported_mCompiled]; exact ih
  | compile _ ih =>
    rcases compile_mCompiled _ with h1 | h1
    · exact h1
    · rw [h1]; exact ih
  | run r _ ih => rw [execute_mCompiled]; exact ih
  | reset _ _ => rfl
  | moveTo _ ih => exact ih
  | moveFrom _ _ => rfl

/-- Witness for claim C9 at a freshly constructed model. -/
theorem claim_C9_witness :
    Reachable (initModel {} ctrlOK) ∧
    (initModel {} ctrlOK).mCompiled = false :=
  ⟨.construct {} ctrlOK, claim_C9_never_compiled _ (.construct {} ctrlOK)⟩

end Hvx

namespace Hvx

/-! ### Claim C2 -/

/-- Claim C2 (code bug): the execute path never triggers a lazy compile.
Model::execute issues exactly one execute_new call (plus a debug-log read)
— never the prepare, session-init or node-construction calls a compilation
would issue — and leaves the compiled flag untouched; when the accelerator
rejects the execution, two successive execute requests both surface
GENERAL_FAILURE through the callback (and the path is a total function, so
neither request crashes).  Device::prepareModel's own comment promises a
failed compile "will be fully compiled later", but no later compile
exists. -/
theorem claim_C2_no_lazy_compile (s : MState) (r : Request)
    (h1 : s.ctrl.executeErr s.core.execCount ≠ 0)
    (h2 : s.ctrl.executeErr (s.core.execCount + 1) ≠ 0) :
    (asyncExecute r s).1 = .GENERAL_FAILURE ∧
    (asyncExecute r (asyncExecute r s).2).1 = .GENERAL_FAILURE ∧
    (asyncExecute r s).2.core.trace =
      .getlog s.graphId ::
        .executeNew s.graphId r.inputs.length r.outputs.length
          (s.ctrl.executeErr s.core.execCount) :: s.core.trace ∧
    (asyncExecute r s).2.mCompiled = s.mCompiled ∧
    (asyncExecute r s).2.graphId = s.graphId ∧
    (asyncExecute r s).2.core.nodeCount = s.core.nodeCount := by
  refine ⟨?_, ?_, rfl, rfl, rfl, rfl⟩
  · simp [asyncExecute, Model.execute, h1]
  · simp [asyncExecute, Model.execute, Model.getDebugLog, addTrace, h1, h2]

/-- Witness for claim C2: a freshly constructed model over an accelerator
that rejects execution; both executes fail, no compile activity occurs. -/
theorem claim_C2_witness :
    (initModel {} ctrlExecFail).ctrl.executeErr (initModel {} ctrlExecFail).core.execCount ≠ 0 ∧
    (initModel {} ctrlExecFail).ctrl.executeErr ((initModel {} ctrlExecFail).core.execCount + 1) ≠ 0 ∧
    ((asyncExecute {} (initModel {} ctrlExecFail)).1 = .GENERAL_FAILURE ∧
     (asyncExecute {} (asyncExecute {} (initModel {} ctrlExecFail)).2).1 = .GENERAL_FAILURE) :=
  ⟨by decide, by decide,
   ⟨(claim_C2_no_lazy_compile (initModel {} ctrlExecFail) {} (by decide) (by decide)).1,
    (claim_C2_no_lazy_compile (initModel {} ctrlExecFail) {} (by decide) (by decide)).2.1⟩⟩

end Hvx

namespace Hvx

/-! ### Claim C3 -/

/-- Counterexample for claim C3 as stated: on a model containing one
unsupported (FLOOR) operation, compile() fails in validation and returns
false with the state completely unchanged — the live session (id 1) is not
torn down, no fresh session is initialized and the trace does not move,
whereas a Reset would visibly change the trace and the session id. -/
theorem claim_C3_cex :
    (Model.compile stC3).1 = false ∧
    (Model.compile stC3).2 = stC3 ∧
    stC3.graphId ≠ 0 ∧
    (Model.resetModel stC3).core.trace ≠ stC3.core.trace ∧
    (Model.resetModel stC3).graphId ≠ stC3.graphId := by
  refine ⟨rfl, rfl, by decide, by decide, by decide⟩

/-- Claim C3 (corrected): compile() returns false without throwing on every
failure, but the Reset happens exactly on a construction-step failure:
resetModel clears the compiled flag and every operand's input/output handle
(cached quantization handles are kept), tears the old session down exactly
when it is live and initializes a fresh one; a validation failure returns
false with the session, trace, node counter and compiled flag untouched;
the prepare phase after successful construction returns the prepare status
with the session preserved — its failure performs no reset either. -/
theorem claim_C3_reset_only_on_construction_failure (s : MState) :
    (Model.resetModel s).mCompiled = false ∧
    ((Model.resetModel s).core.operands.all (fun o =>
      decide (o.hexagon_input = ({} : hexagon_nn_input)) &&
      decide (o.hexagon_output = ({} : hexagon_nn_output)))) = true ∧
    (Model.resetModel s).graphId = s.ctrl.initResult s.core.initCount ∧
    (Model.resetModel s).core.trace =
      .setDebugLevel (s.ctrl.initResult s.core.initCount) 99 ::
        .initGraph (s.ctrl.initResult s.core.initCount) ::
        (if s.graphId ≠ 0 then CtrlCall.teardown s.graphId :: s.core.trace
         else s.core.trace) ∧
    (preparePhase s).1 = decide (s.ctrl.prepareErr s.core.prepCount = 0) ∧
    (preparePhase s).2.graphId = s.graphId ∧
    (preparePhase s).2.mCompiled = s.mCompiled ∧
    (preparePhase s).2.core.trace =
      .getlog s.graphId :: .snpprint s.graphId ::
        .prepareGraph s.graphId (s.ctrl.prepareErr s.core.prepCount) ::
        .getlog s.graphId :: .snpprint s.graphId :: s.core.trace ∧
    ((Model.verifyOperations s).1 = false →
      Model.compile s = (false, (Model.verifyOperations s).2) ∧
      (Model.verifyOperations s).2.core.trace = s.core.trace ∧
      (Model.verifyOperations s).2.graphId = s.graphId ∧
      (Model.verifyOperations s).2.mCompiled = s.mCompiled ∧
      (Model.verifyOperations s).2.core.nodeCount = s.core.nodeCount) ∧
    ((Model.verifyOperations s).1 = true →
      Model.verifyOperands (Model.verifyOperations s).2 = false →
      Model.compile s = (false, (Model.verifyOperations s).2)) ∧
    ((Model.verifyOperations s).1 = true →
      Model.verifyOperands (Model.verifyOperations s).2 = true →
      (constructionRun (Model.verifyOperations s).2).1 = false →
      Model.compile s =
        (false, Model.resetModel (constructionRun (Model.verifyOperations s).2).2)) ∧
    ((Model.verifyOperations s).1 = true →
      Model.verifyOperands (Model.verifyOperations s).2 = true →
      (constructionRun (Model.verifyOperations s).2).1 = true →
      Model.compile s = preparePhase (constructionRun (Model.verifyOperations s).2).2) := by
  refine ⟨?_, ?_, ?_, ?_, ?_, rfl, rfl, ?_, ?_, ?_, ?_, ?_⟩
  · by_cases h : s.graphId = 0 <;> simp [Model.resetModel, addTrace, h]
  · by_cases h : s.graphId = 0 <;> simp [Model.resetModel, addTrace, h, List.all_eq_true]
  · by_cases h : s.graphId = 0 <;> simp [Model.resetModel, addTrace, h]
  · by_cases h : s.graphId = 0 <;> simp [Model.resetModel, addTrace, h]
  · simp only [preparePhase, Model.getLog, Model.getDebugLog, addTrace]
  · simp only [preparePhase, Model.getLog, Model.getDebugLog, addTrace]
  · intro hv
    rcases hvv : Model.verifyOperations s with ⟨vOps, s1⟩
    rw [hvv] at hv
    simp only at hv
    have htr : s1.core.trace = s.core.trace ∧ s1.graphId = s.graphId ∧
        s1.mCompiled = s.mCompiled ∧ s1.core.nodeCount = s.core.nodeCount := by
      have : s1 = (Model.supportedOperations s).2 := by
        have h2 : (Model.verifyOperations s).2 = s1 := by rw [hvv]
        rw [← h2]
        rcases hr : Model.supportedOperations s with ⟨bs, t⟩
        simp [Model.verifyOperations, hr]
      subst this
      rcases hr : runChecks s.operations s.core.operands with ⟨bs, env⟩
      simp [Model.supportedOperations, hr, supported_mCompiled]
    refine ⟨?_, htr.1, htr.2.1, htr.2.2.1, htr.2.2.2⟩
    simp [Model.compile, hvv, hv]
  · intro hv hvo
    rcases hvv : Model.verifyOperations s with ⟨vOps, s1⟩
    rw [hvv] at hv hvo
    simp only at hv hvo
    simp [Model.compile, hvv, hv, hvo]
  · intro hv hvo hcf
    rcases hvv : Model.verifyOperations s with ⟨vOps, s1⟩
    rw [hvv] at hv hvo hcf
    simp only at hv hvo hcf
    rcases hcc : constructionRun s1 with ⟨cOk, s4⟩
    rw [hcc] at hcf
    simp only at hcf
    simp [Model.compile, hvv, hv, hvo, hcc, hcf]
  · intro hv hvo hcs
    rcases hvv : Model.verifyOperations s with ⟨vOps, s1⟩
    rw [hvv] at hv hvo hcs
    simp only at hv hvo hcs
    rcases hcc : constructionRun s1 with ⟨cOk, s4⟩
    rw [hcc] at hcs
    simp only at hcs
    simp [Model.compile, hvv, hv, hvo, hcc, hcs]

/-- Witness for claim C3 on the concrete unsupported-operation model: the
validation-failure branch applies with no reset. -/
theorem claim_C3_witness :
    (Model.verifyOperations stC3).1 = false ∧
    (Model.compile stC3 = (false, (Model.verifyOperations stC3).2) ∧
      (Model.verifyOperations stC3).2.core.trace = stC3.core.trace ∧
      (Model.verifyOperations stC3).2.graphId = stC3.graphId ∧
      (Model.verifyOperations stC3).2.mCompiled = stC3.mCompiled ∧
      (Model.verifyOperations stC3).2.core.nodeCount = stC3.core.nodeCount) ∧
    (Model.resetModel stC3).mCompiled = false :=
  ⟨by decide,
   (claim_C3_reset_only_on_construction_failure stC3).2.2.2.2.2.2.2.2.1 (by decide),
   (claim_C3_reset_only_on_construction_failure stC3).1⟩

end Hvx

namespace Hvx

/-! ### Claim C1 -/

/-- Claim C1 (code bug): supportedOperations() can return true for an
operation that no lowering function accepts.  (i) Arity: the
AVERAGE_POOL_2D check accepts the 7-input implicit-padding form, but the
(AVERAGE_POOL_2D, float32) lowering function requires exactly 10 inputs and
fails, so compile() fails on a model every operation of which was
advertised as supported.  (ii) Pair existence: the check table is keyed by
operation kind only, so a TANH over a quantized tensor checks as supported
although the lowering table has no (TANH, quant8) entry at all.  This
theorem evaluates the code at both failing inputs. -/
theorem claim_C1_supported_without_lowering :
    (Model.supportedOperations stC1).1 = [true] ∧
    getOperationPrepareTable (.AVERAGE_POOL_2D, .TENSOR_FLOAT32) =
      some f32_average_pool_2d ∧
    f32_average_pool_2d stC1.graphId stC1.ctrl [0, 1, 2, 3, 4, 5, 6] [7] stC1.core =
      (false, stC1.core) ∧
    (Model.compile stC1).1 = false ∧
    (Model.supportedOperations stC1b).1 = [true] ∧
    getOperationPrepareTable (.TANH, .TENSOR_QUANT8_ASYMM) = none := by
  refine ⟨by decide, rfl, rfl, by decide, by decide, rfl⟩

end Hvx

namespace Hvx

/-! ### Claim C8: machinery

The checks' only state effect is the setShape dimension write to the
operation's first output; their verdict depends only on the full records of
the input operands and the dimension-free part of the output operand.  The
lemmas below make both facts precise and give idempotence of the
supportedOperations loop on well-formed operation lists. -/

theorem getD_mem_of_lt {l : List Nat} {i : Nat} (h : i < l.length) (d : Nat) :
    l.getD i d ∈ l := by
  simp only [List.getD_eq_getElem?_getD, List.getElem?_eq_getElem h, Option.getD_some]
  exact List.getElem_mem h

theorem opAt_in_frame {env env' : List OperandInfo} {ins : List Nat}
    (h1 : ∀ x ∈ ins, opAt env x = opAt env' x) {i : Nat} (hi : i < ins.length)
    (d : Nat) : opAt env (ins.getD i d) = opAt env' (ins.getD i d) :=
  h1 _ (getD_mem_of_lt hi d)

theorem getShapeP_frame {env env' : List OperandInfo} {a : Nat}
    (h : opAt env a = opAt env' a) : getShapeP env a = getShapeP env' a := by
  simp [getShapeP, h]

theorem getScalarInt_frame {env env' : List OperandInfo} {a : Nat}
    (h : opAt env a = opAt env' a) : getScalarInt env a = getScalarInt env' a := by
  simp [getScalarInt, h]

theorem isConstant_frame {env env' : List OperandInfo} {a : Nat}
    (h : opAt env a = opAt env' a) : isConstant env a = isConstant env' a := by
  simp [isConstant, h]

theorem hexagon_output_of_stripDims {o o' : OperandInfo}
    (h : stripDims o = stripDims o') : o.hexagon_output = o'.hexagon_output := by
  have := congrArg OperandInfo.hexagon_output h
  simpa [stripDims] using this

theorem checkSetShape_frame {env env' : List OperandInfo} {o : Nat}
    (h : stripDims (opAt env o) = stripDims (opAt env' o)) (d : List Nat) :
    checkSetShape env o d = checkSetShape env' o d := by
  simp [checkSetShape, hexagon_output_of_stripDims h]

theorem applyCheckWrite_stripDims (k : Nat) (w : Option (List Nat))
    (env : List OperandInfo) (j : Nat) :
    stripDims (opAt (applyCheckWrite k w env) j) = stripDims (opAt env j) := by
  cases w with
  | none => rfl
  | some d =>
    by_cases hj : k = j
    · subst hj
      by_cases hlt : k < env.length
      · rw [applyCheckWrite, opAt_setOp_self hlt]
        rfl
      · rw [applyCheckWrite]
        unfold setOp
        rw [List.set_eq_of_length_le (Nat.le_of_not_lt hlt)]
    · rw [applyCheckWrite, opAt_setOp_ne hj]

theorem applyCheckWrite_ne (k : Nat) (w : Option (List Nat))
    (env : List OperandInfo) (j : Nat) (hj : k ≠ j) :
    opAt (applyCheckWrite k w env) j = opAt env j := by
  cases w with
  | none => rfl
  | some d => exact opAt_setOp_ne hj _

theorem applyCheckWrite_length (k : Nat) (w : Option (List Nat))
    (env : List OperandInfo) :
    (applyCheckWrite k w env).length = env.length := by
  cases w with
  | none => rfl
  | some d => simp [applyCheckWrite, setOp]

theorem runChecks_cons (op : Operation) (rest : List Operation)
    (env : List OperandInfo) :
    runChecks (op :: rest) env =
      ((checkRunTable op env).1 ::
        (runChecks rest (applyCheckWrite (outs0 op) (checkRunTable op env).2 env)).1,
       (runChecks rest (applyCheckWrite (outs0 op) (checkRunTable op env).2 env)).2) := by
  rfl

theorem runChecks_stripDims (ops : List Operation) (env : List OperandInfo)
    (j : Nat) :
    stripDims (opAt (runChecks ops env).2 j) = stripDims (opAt env j) := by
  induction ops generalizing env with
  | nil => rfl
  | cons op rest ih =>
    rw [runChecks_cons]
    exact (ih _).trans (applyCheckWrite_stripDims _ _ _ _)

theorem runChecks_not_written (ops : List Operation) (env : List OperandInfo)
    (j : Nat) (hj : j ∉ ops.map outs0) :
    opAt (runChecks ops env).2 j = opAt env j := by
  induction ops generalizing env with
  | nil => rfl
  | cons op rest ih =>
    rw [runChecks_cons]
    have hj1 : outs0 op ≠ j := by
      intro h
      exact hj (by simp [← h])
    have hj2 : j ∉ rest.map outs0 := by
      intro h
      exact hj (by simp [h])
    exact (ih _ hj2).trans (applyCheckWrite_ne _ _ _ _ hj1)

theorem runChecks_length (ops : List Operation) (env : List OperandInfo) :
    (runChecks ops env).2.length = env.length := by
  induction ops generalizing env with
  | nil => rfl
  | cons op rest ih =>
    rw [runChecks_cons]
    exact (ih _).trans (applyCheckWrite_length _ _ _)

theorem runChecks_count (ops : List Operation) (env : List OperandInfo) :
    (runChecks ops env).1.length = ops.length := by
  induction ops generalizing env with
  | nil => rfl
  | cons op rest ih =>
    rw [runChecks_cons]
    simp [ih]

theorem setOp_getD_self (env : List OperandInfo) (k : Nat) :
    setOp env k (opAt env k) = env := by
  induction env generalizing k with
  | nil => rfl
  | cons a l ih =>
    cases k with
    | zero => rfl
    | succ n =>
      show a :: setOp l n (opAt l n) = a :: l
      rw [ih]

theorem record_update_dims_self (o : OperandInfo) (d : List Nat)
    (h : o.dimensions = d) : { o with dimensions := d } = o := by
  cases o
  simp_all

end Hvx

namespace Hvx

theorem addMul_check_frame (ins outs : List Nat) (env env' : List OperandInfo)
    (h1 : ∀ x ∈ ins, opAt env x = opAt env' x)
    (h2 : ∀ k, stripDims (opAt env k) = stripDims (opAt env' k)) :
    addMul_check ins outs env = addMul_check ins outs env' := by
  by_cases hl : ins.length ≠ 3 ∨ outs.length ≠ 1
  · simp only [addMul_check, if_pos hl]
  · push_neg at hl
    have e0 : opAt env (ins.getD 0 0) = opAt env' (ins.getD 0 0) :=
      opAt_in_frame h1 (by omega) 0
    have e1 : opAt env (ins.getD 1 0) = opAt env' (ins.getD 1 0) :=
      opAt_in_frame h1 (by omega) 0
    simp only [addMul_check, getShapeP_frame e0, getShapeP_frame e1,
      checkSetShape_frame (h2 (outs.getD 0 0))]

theorem pool_check_frame (ins outs : List Nat) (env env' : List OperandInfo)
    (h1 : ∀ x ∈ ins, opAt env x = opAt env' x)
    (h2 : ∀ k, stripDims (opAt env k) = stripDims (opAt env' k)) :
    pool_check ins outs env = pool_check ins outs env' := by
  by_cases h10 : ins.length = 10
  · have e : ∀ i, i < ins.length →
        opAt env (ins.getD i 0) = opAt env' (ins.getD i 0) :=
      fun i hi => opAt_in_frame h1 hi 0
    simp only [pool_check, h10, if_pos rfl, getShapeP_frame (e 0 (by omega)),
      getScalarInt_frame (e 1 (by omega)), getScalarInt_frame (e 2 (by omega)),
      getScalarInt_frame (e 3 (by omega)), getScalarInt_frame (e 4 (by omega)),
      getScalarInt_frame (e 5 (by omega)), getScalarInt_frame (e 6 (by omega)),
      getScalarInt_frame (e 7 (by omega)), getScalarInt_frame (e 8 (by omega)),
      checkSetShape_frame (h2 (outs.getD 0 0))]
  · by_cases h7 : ins.length = 7
    · have e : ∀ i, i < ins.length →
          opAt env (ins.getD i 0) = opAt env' (ins.getD i 0) :=
        fun i hi => opAt_in_frame h1 hi 0
      simp only [pool_check, h10, h7, if_pos rfl, if_neg (by omega : ¬ (7 : Nat) = 10),
        getShapeP_frame (e 0 (by omega)), getScalarInt_frame (e 1 (by omega)),
        getScalarInt_frame (e 2 (by omega)), getScalarInt_frame (e 3 (by omega)),
        getScalarInt_frame (e 4 (by omega)), getScalarInt_frame (e 5 (by omega)),
        checkSetShape_frame (h2 (outs.getD 0 0))]
    · simp only [pool_check, if_neg h10, if_neg h7]

theorem concatenation_check_frame (ins outs : List Nat) (env env' : List OperandInfo)
    (h1 : ∀ x ∈ ins, opAt env x = opAt env' x)
    (h2 : ∀ k, stripDims (opAt env k) = stripDims (opAt env' k)) :
    concatenation_check ins outs env = concatenation_check ins outs env' := by
  by_cases hl : ins.length < 3 ∨ outs.length ≠ 1
  · simp only [concatenation_check, if_pos hl]
  · push_neg at hl
    have eaxis : opAt env (ins.getD (ins.length - 1) 0) =
        opAt env' (ins.getD (ins.length - 1) 0) :=
      opAt_in_frame h1 (by omega) 0
    have emap : (ins.take (ins.length - 1)).map (getShapeP env) =
        (ins.take (ins.length - 1)).map (getShapeP env') :=
      List.map_congr_left (fun x hx =>
        getShapeP_frame (h1 x (List.take_subset _ _ hx)))
    simp only [concatenation_check, getScalarInt_frame eaxis, emap,
      checkSetShape_frame (h2 (outs.getD 0 0))]

theorem conv_2d_check_frame (ins outs : List Nat) (env env' : List OperandInfo)
    (h1 : ∀ x ∈ ins, opAt env x = opAt env' x)
    (h2 : ∀ k, stripDims (opAt env k) = stripDims (opAt env' k)) :
    conv_2d_check ins outs env = conv_2d_check ins outs env' := by
  by_cases hc : ¬ (ins.length = 10 ∨ ins.length = 7) ∨ outs.length ≠ 1
  · simp only [conv_2d_check, if_pos hc]
  · have hlen : (ins.length = 10 ∨ ins.length = 7) ∧ outs.length = 1 := by
      push_neg at hc
      exact hc
    have e : ∀ i, i < ins.length →
        opAt env (ins.getD i 0) = opAt env' (ins.getD i 0) :=
      fun i hi => opAt_in_frame h1 hi 0
    have hge : 7 ≤ ins.length := by omega
    by_cases h10 : ins.length = 10
    · simp only [conv_2d_check, if_neg hc, h10, if_pos rfl,
        getShapeP_frame (e 0 (by omega)), getShapeP_frame (e 1 (by omega)),
        getShapeP_frame (e 2 (by omega)), getScalarInt_frame (e 3 (by omega)),
        getScalarInt_frame (e 4 (by omega)), getScalarInt_frame (e 5 (by omega)),
        getScalarInt_frame (e 6 (by omega)), getScalarInt_frame (e 7 (by omega)),
        getScalarInt_frame (e 8 (by omega)),
        checkSetShape_frame (h2 (outs.getD 0 0)), isConstant_frame (e 1 (by omega))]
    · have h7 : ins.length = 7 := by omega
      simp only [conv_2d_check, if_neg hc, h7,
        if_neg (by omega : ¬ ((7 : Nat) = 10)),
        getShapeP_frame (e 0 (by omega)), getShapeP_frame (e 1 (by omega)),
        getShapeP_frame (e 2 (by omega)), getScalarInt_frame (e 3 (by omega)),
        getScalarInt_frame (e 4 (by omega)), getScalarInt_frame (e 5 (by omega)),
        checkSetShape_frame (h2 (outs.getD 0 0)), isConstant_frame (e 1 (by omega))]

theorem depthwise_conv_2d_check_frame (ins outs : List Nat)
    (env env' : List OperandInfo)
    (h1 : ∀ x ∈ ins, opAt env x = opAt env' x)
    (h2 : ∀ k, stripDims (opAt env k) = stripDims (opAt env' k)) :
    depthwise_conv_2d_check ins outs env = depthwise_conv_2d_check ins outs env' := by
  by_cases hc : ¬ (ins.length = 11 ∨ ins.length = 8) ∨ outs.length ≠ 1
  · simp only [depthwise_conv_2d_check, if_pos hc]
  · have hlen : (ins.length = 11 ∨ ins.length = 8) ∧ outs.length = 1 := by
      push_neg at hc
      exact hc
    have e : ∀ i, i < ins.length →
        opAt env (ins.getD i 0) = opAt env' (ins.getD i 0) :=
      fun i hi => opAt_in_frame h1 hi 0
    have hge : 8 ≤ ins.length := by omega
    by_cases h11 : ins.length = 11
    · simp only [depthwise_conv_2d_check, if_neg hc, h11, if_pos rfl,
        getShapeP_frame (e 0 (by omega)), getShapeP_frame (e 1 (by omega)),
        getShapeP_frame (e 2 (by omega)), getScalarInt_frame (e 3 (by omega)),
        getScalarInt_frame (e 4 (by omega)), getScalarInt_frame (e 5 (by omega)),
        getScalarInt_frame (e 6 (by omega)), getScalarInt_frame (e 7 (by omega)),
        getScalarInt_frame (e 8 (by omega)),
        checkSetShape_frame (h2 (outs.getD 0 0)), isConstant_frame (e 1 (by omega))]
    · have h8 : ins.length = 8 := by omega
      simp only [depthwise_conv_2d_check, if_neg hc, h8,
        if_neg (by omega : ¬ ((8 : Nat) = 11)),
        getShapeP_frame (e 0 (by omega)), getShapeP_frame (e 1 (by omega)),
        getShapeP_frame (e 2 (by omega)), getScalarInt_frame (e 3 (by omega)),
        getScalarInt_frame (e 4 (by omega)), getScalarInt_frame (e 5 (by omega)),
        checkSetShape_frame (h2 (outs.getD 0 0)), isConstant_frame (e 1 (by omega))]

theorem dequantize_check_frame (ins outs : List Nat) (env env' : List OperandInfo)
    (h1 : ∀ x ∈ ins, opAt env x = opAt env' x)
    (h2 : ∀ k, stripDims (opAt env k) = stripDims (opAt env' k)) :
    dequantize_check ins outs env = dequantize_check ins outs env' := by
  by_cases hl : ins.length ≠ 1 ∨ outs.length ≠ 1
  · simp only [dequantize_check, if_pos hl]
  · push_neg at hl
    simp only [dequantize_check, if_neg (by omega : ¬ (ins.length ≠ 1 ∨ outs.length ≠ 1)),
      getShapeP_frame (opAt_in_frame h1 (show 0 < ins.length by omega) 0),
      checkSetShape_frame (h2 (outs.getD 0 0))]

theorem fully_connected_check_frame (ins outs : List Nat)
    (env env' : List OperandInfo)
    (h1 : ∀ x ∈ ins, opAt env x = opAt env' x)
    (h2 : ∀ k, stripDims (opAt env k) = stripDims (opAt env' k)) :
    fully_connected_check ins outs env = fully_connected_check ins outs env' := by
  by_cases hl : ins.length ≠ 4 ∨ outs.length ≠ 1
  · simp only [fully_connected_check, if_pos hl]
  · push_neg at hl
    have e : ∀ i, i < ins.length →
        opAt env (ins.getD i 0) = opAt env' (ins.getD i 0) :=
      fun i hi => opAt_in_frame h1 hi 0
    simp only [fully_connected_check,
      if_neg (by omega : ¬ (ins.length ≠ 4 ∨ outs.length ≠ 1)),
      getShapeP_frame (e 0 (by omega)), getShapeP_frame (e 1 (by omega)),
      getShapeP_frame (e 2 (by omega)),
      checkSetShape_frame (h2 (outs.getD 0 0)), isConstant_frame (e 1 (by omega))]

theorem lrn_check_frame (ins outs : List Nat) (env env' : List OperandInfo)
    (h1 : ∀ x ∈ ins, opAt env x = opAt env' x)
    (h2 : ∀ k, stripDims (opAt env k) = stripDims (opAt env' k)) :
    lrn_check ins outs env = lrn_check ins outs env' := by
  by_cases hl : ins.length ≠ 5 ∨ outs.length ≠ 1
  · simp only [lrn_check, if_pos hl]
  · push_neg at hl
    simp only [lrn_check, if_neg (by omega : ¬ (ins.length ≠ 5 ∨ outs.length ≠ 1)),
      getShapeP_frame (opAt_in_frame h1 (show 0 < ins.length by omega) 0),
      checkSetShape_frame (h2 (outs.getD 0 0))]

theorem activation_check_frame (n : Nat) (hn : 0 < n) (ins outs : List Nat)
    (env env' : List OperandInfo)
    (h1 : ∀ x ∈ ins, opAt env x = opAt env' x)
    (h2 : ∀ k, stripDims (opAt env k) = stripDims (opAt env' k)) :
    activation_check n ins outs env = activation_check n ins outs env' := by
  by_cases hl : ins.length ≠ n ∨ outs.length ≠ 1
  · simp only [activation_check, if_pos hl]
  · push_neg at hl
    simp only [activation_check, if_neg (by omega : ¬ (ins.length ≠ n ∨ outs.length ≠ 1)),
      getShapeP_frame (opAt_in_frame h1 (show 0 < ins.length by omega) 0),
      checkSetShape_frame (h2 (outs.getD 0 0))]

theorem reshape_check_frame (ins outs : List Nat) (env env' : List OperandInfo)
    (h1 : ∀ x ∈ ins, opAt env x = opAt env' x)
    (h2 : ∀ k, stripDims (opAt env k) = stripDims (opAt env' k)) :
    reshape_check ins outs env = reshape_check ins outs env' := by
  by_cases hl : ins.length ≠ 2 ∨ outs.length ≠ 1
  · simp only [reshape_check, if_pos hl]
  · push_neg at hl
    have e : ∀ i, i < ins.length →
        opAt env (ins.getD i 0) = opAt env' (ins.getD i 0) :=
      fun i hi => opAt_in_frame h1 hi 0
    simp only [reshape_check, if_neg (by omega : ¬ (ins.length ≠ 2 ∨ outs.length ≠ 1)),
      getShapeP_frame (e 0 (by omega)), getShapeP_frame (e 1 (by omega)),
      e 1 (by omega), checkSetShape_frame (h2 (outs.getD 0 0))]

theorem resize_bilinear_check_frame (ins outs : List Nat)
    (env env' : List OperandInfo)
    (h1 : ∀ x ∈ ins, opAt env x = opAt env' x)
    (h2 : ∀ k, stripDims (opAt env k) = stripDims (opAt env' k)) :
    resize_bilinear_check ins outs env = resize_bilinear_check ins outs env' := by
  by_cases hl : ins.length ≠ 3 ∨ outs.length ≠ 1
  · simp only [resize_bilinear_check, if_pos hl]
  · push_neg at hl
    have e : ∀ i, i < ins.length →
        opAt env (ins.getD i 0) = opAt env' (ins.getD i 0) :=
      fun i hi => opAt_in_frame h1 hi 0
    simp only [resize_bilinear_check,
      if_neg (by omega : ¬ (ins.length ≠ 3 ∨ outs.length ≠ 1)),
      getShapeP_frame (e 0 (by omega)), getScalarInt_frame (e 1 (by omega)),
      getScalarInt_frame (e 2 (by omega)),
      checkSetShape_frame (h2 (outs.getD 0 0))]

theorem checkRunTable_frame (op : Operation) (env env' : List OperandInfo)
    (h1 : ∀ x ∈ op.inputs, opAt env x = opAt env' x)
    (h2 : ∀ k, stripDims (opAt env k) = stripDims (opAt env' k)) :
    checkRunTable op env = checkRunTable op env' := by
  cases htype : op.type <;>
    simp only [checkRunTable, htype, getOperationCheckTable] <;>
    first
      | rfl
      | exact addMul_check_frame _ _ _ _ h1 h2
      | exact pool_check_frame _ _ _ _ h1 h2
      | exact concatenation_check_frame _ _ _ _ h1 h2
      | exact conv_2d_check_frame _ _ _ _ h1 h2
      | exact depthwise_conv_2d_check_frame _ _ _ _ h1 h2
      | exact dequantize_check_frame _ _ _ _ h1 h2
      | exact fully_connected_check_frame _ _ _ _ h1 h2
      | exact lrn_check_frame _ _ _ _ h1 h2
      | exact activation_check_frame 1 (by omega) _ _ _ _ h1 h2
      | exact activation_check_frame 2 (by omega) _ _ _ _ h1 h2
      | exact reshape_check_frame _ _ _ _ h1 h2
      | exact resize_bilinear_check_frame _ _ _ _ h1 h2

theorem runChecks_idem (ops : List Operation) (env : List OperandInfo)
    (hwf : wfOps ops = true) :
    runChecks ops (runChecks ops env).2 =
      ((runChecks ops env).1, (runChecks ops env).2) := by
  induction ops generalizing env with
  | nil => rfl
  | cons op rest ih =>
    simp only [wfOps, Bool.and_eq_true, List.all_eq_true, decide_eq_true_eq,
      List.map_cons, List.mem_cons, not_or] at hwf
    obtain ⟨⟨hin, hout⟩, hrest⟩ := hwf
    have hA : checkRunTable op
        (runChecks rest (applyCheckWrite (outs0 op) (checkRunTable op env).2 env)).2
        = checkRunTable op env := by
      apply checkRunTable_frame
      · intro x hx
        obtain ⟨hx1, hx2⟩ := hin x hx
        rw [runChecks_not_written _ _ _ hx2,
          applyCheckWrite_ne _ _ _ _ (Ne.symm hx1)]
      · intro j
        rw [runChecks_stripDims, applyCheckWrite_stripDims]
    have hB : applyCheckWrite (outs0 op) (checkRunTable op env).2
        (runChecks rest (applyCheckWrite (outs0 op) (checkRunTable op env).2 env)).2
        = (runChecks rest (applyCheckWrite (outs0 op) (checkRunTable op env).2 env)).2 := by
      cases hw : (checkRunTable op env).2 with
      | none => rfl
      | some d =>
        by_cases hk : outs0 op < env.length
        · have h1 : opAt (applyCheckWrite (outs0 op) (some d) env) (outs0 op)
              = { opAt env (outs0 op) with dimensions := d } := by
            simp only [applyCheckWrite]
            exact opAt_setOp_self hk _
          have hN : opAt
              (runChecks rest (applyCheckWrite (outs0 op) (some d) env)).2 (outs0 op)
              = { opAt env (outs0 op) with dimensions := d } := by
            rw [runChecks_not_written _ _ _ hout, h1]
          have hdim : (opAt
              (runChecks rest (applyCheckWrite (outs0 op) (some d) env)).2
              (outs0 op)).dimensions = d := by
            rw [hN]
          have hself :=
            record_update_dims_self
              (opAt (runChecks rest (applyCheckWrite (outs0 op) (some d) env)).2
                (outs0 op)) d hdim
          calc applyCheckWrite (outs0 op) (some d)
                (runChecks rest (applyCheckWrite (outs0 op) (some d) env)).2
              = setOp (runChecks rest (applyCheckWrite (outs0 op) (some d) env)).2
                  (outs0 op)
                  { opAt (runChecks rest
                      (applyCheckWrite (outs0 op) (some d) env)).2 (outs0 op) with
                    dimensions := d } := rfl
            _ = setOp (runChecks rest (applyCheckWrite (outs0 op) (some d) env)).2
                  (outs0 op)
                  (opAt (runChecks rest
                    (applyCheckWrite (outs0 op) (some d) env)).2 (outs0 op)) := by
                rw [hself]
            _ = (runChecks rest (applyCheckWrite (outs0 op) (some d) env)).2 :=
                setOp_getD_self _ _
        · have hle : (runChecks rest
              (applyCheckWrite (outs0 op) (some d) env)).2.length ≤ outs0 op := by
            rw [runChecks_length, applyCheckWrite_length]
            omega
          calc applyCheckWrite (outs0 op) (some d)
                (runChecks rest (applyCheckWrite (outs0 op) (some d) env)).2
              = ((runChecks rest (applyCheckWrite (outs0 op) (some d) env)).2).set
                  (outs0 op)
                  { opAt (runChecks rest
                      (applyCheckWrite (outs0 op) (some d) env)).2 (outs0 op) with
                    dimensions := d } := rfl
            _ = (runChecks rest (applyCheckWrite (outs0 op) (some d) env)).2 :=
                List.set_eq_of_length_le hle
    have hC := ih (applyCheckWrite (outs0 op) (checkRunTable op env).2 env) hrest
    rw [runChecks_cons, runChecks_cons, hA, hB, hC]

/-- Model::supportedOperations unfolded to explicit pair form. -/
theorem supportedOperations_eq (s : MState) :
    Model.supportedOperations s =
      ((runChecks s.operations s.core.operands).1,
       { s with core := { s.core with
           operands := (runChecks s.operations s.core.operands).2 } }) := by
  rcases hre : runChecks s.operations s.core.operands with ⟨bs, env⟩
  simp [Model.supportedOperations, hre]

/-- Claim C8 (confirmed): for a well-formed operation list (topologically
ordered, distinct first outputs, as NN model validity requires), calling
Model::supportedOperations twice yields identical boolean vectors aligned
1:1 with the operation list, neither call touches the accelerator session
(trace, node counter and graph id are untouched), and the second call does
not change the model state at all. -/
theorem claim_C8_supported_idempotent (s : MState)
    (hwf : wfOps s.operations = true) :
    (Model.supportedOperations (Model.supportedOperations s).2).1
        = (Model.supportedOperations s).1 ∧
    (Model.supportedOperations s).1.length = s.operations.length ∧
    (Model.supportedOperations s).2.core.trace = s.core.trace ∧
    (Model.supportedOperations s).2.core.nodeCount = s.core.nodeCount ∧
    (Model.supportedOperations s).2.graphId = s.graphId ∧
    (Model.supportedOperations (Model.supportedOperations s).2).2
        = (Model.supportedOperations s).2 := by
  have hidem := runChecks_idem s.operations s.core.operands hwf
  rw [supportedOperations_eq s,
    supportedOperations_eq
      ({ s with core := { s.core with
          operands := (runChecks s.operations s.core.operands).2 } })]
  refine ⟨?_, runChecks_count _ _, rfl, rfl, rfl, ?_⟩
  · simp only []
    rw [hidem]
  · simp only []
    rw [hidem]

/-- Witness for C8: the two-operation ADD-into-RELU model is well formed
and its second supportedOperations call returns the same vector. -/
theorem claim_C8_witness :
    wfOps stC8.operations = true ∧
    (Model.supportedOperations (Model.supportedOperations stC8).2).1
        = (Model.supportedOperations stC8).1 :=
  ⟨by decide, (claim_C8_supported_idempotent stC8 (by decide)).1⟩

end Hvx
